import Mathlib

set_option maxHeartbeats 1000000

/-!
Verification of the MH-Prospect B2B prospecting pipeline.

This development shallowly embeds the parts of the repository that the
specified properties concern:

* `scoring.py` — the `ProspectScoring` score computation and categories;
* `main.py` — the relevance filter, geography detection, and the
  `traiter_prospect` enrichment pipeline of `AgentProspection`;
* `database.py` — `ProspectDatabase.ajouter_prospect` over the SQLite
  `UNIQUE(nom_entreprise, site_web)` table with `INSERT OR IGNORE`;
* `openai_client.py` — `generer_message_personnalise` fallback handling;
* `zerobounce_client.py` — `verifier_email` status shaping.

Python dict-shaped records are embedded as functions `String → Option PyVal`;
Python exceptions are embedded with `Except PyExc`; Python float arithmetic
in the scorer (all weights are exact multiples of 0.1) is embedded with the
exact fraction type `Dec` below.  Python string primitives (`lower`, `in`,
`startswith`, `strip`, `split`, `replace`) are re-implemented structurally
over `List Char` so that every definition evaluates inside the kernel.
`lower` is modelled on the ASCII range only: every keyword literal in the
sources is already lowercase, and accented characters pass through unchanged.
-/

namespace MHProspect

/-- ASCII lowercase of one character (model of Python `str.lower` per char;
    non-ASCII letters pass through unchanged). -/
def lowerChar (c : Char) : Char :=
  if 'A' ≤ c ∧ c ≤ 'Z' then Char.ofNat (c.toNat + 32) else c

/-- Model of Python `str.lower` (ASCII range). -/
def lowerStr (s : String) : String :=
  ⟨s.data.map lowerChar⟩

/-- Substring occurrence on character lists: does `pat` occur contiguously in `hay`? -/
def containsL (hay pat : List Char) : Bool :=
  match hay with
  | [] => pat.isEmpty
  | _ :: rest => pat.isPrefixOf hay || containsL rest pat

/-- Model of Python `pat in hay` on strings (substring containment). -/
def containsStr (hay pat : String) : Bool :=
  containsL hay.data pat.data

/-- Model of Python `s.startswith(pre)`. -/
def startsWithStr (s pre : String) : Bool :=
  pre.data.isPrefixOf s.data

/-- Whitespace test used by `strip` (ASCII whitespace). -/
def isSpaceChar (c : Char) : Bool :=
  c = ' ' || c = '\t' || c = '\n' || c = '\r'

/-- Model of Python `s.strip()`: drop whitespace at both ends. -/
def trimL (l : List Char) : List Char :=
  ((l.dropWhile isSpaceChar).reverse.dropWhile isSpaceChar).reverse

/-- Model of Python `s.strip()` on strings. -/
def trimStr (s : String) : String :=
  ⟨trimL s.data⟩

/-- Split a character list at every occurrence of the separator character
    (model of Python `s.split(sep)` for a one-character separator). -/
def splitCharL (c : Char) (l : List Char) : List (List Char) :=
  match l with
  | [] => [[]]
  | x :: xs =>
    match splitCharL c xs with
    | [] => [[x]]
    | h :: t => if x = c then [] :: h :: t else (x :: h) :: t

/-- Model of Python `s.split(sep)` for a one-character separator string. -/
def splitStr (c : Char) (s : String) : List String :=
  (splitCharL c s.data).map String.mk

/-- Model of Python `s.replace(pat, sub)` on character lists.  The patterns
    used in the sources are the non-empty literal placeholders of the message
    templates; an empty pattern is returned unchanged. -/
def replaceL (l pat sub : List Char) : List Char :=
  if hp : pat.isEmpty then l
  else
    match l with
    | [] => []
    | x :: xs =>
      if pat.isPrefixOf (x :: xs) then
        sub ++ replaceL ((x :: xs).drop pat.length) pat sub
      else
        x :: replaceL xs pat sub
termination_by l.length
decreasing_by
  · simp only [List.length_drop, List.length_cons]
    cases pat with
    | nil => simp at hp
    | cons p ps => simp; omega
  · simp

/-- Model of Python `s.replace(pat, sub)` on strings. -/
def replaceStr (s pat sub : String) : String :=
  ⟨replaceL s.data pat.data sub.data⟩

/-- Model of Python `",".join(l)`. -/
def joinComma (l : List String) : String :=
  match l with
  | [] => ""
  | [s] => s
  | s :: rest => s ++ "," ++ joinComma rest

/-- Exact fraction with a positive denominator, used to embed the scorer's
    float arithmetic (every constant in `scoring.py` is an exact multiple of
    0.1, so exact fractions and Python floats agree on every comparison and
    truncation performed there).  Fractions are not reduced; all operations
    are plain integer arithmetic, so everything evaluates in the kernel. -/
structure Dec where
  num : Int
  den : Nat
  den_pos : 0 < den

/-- Embed an integer. -/
def Dec.ofInt (n : Int) : Dec := ⟨n, 1, Nat.one_pos⟩

/-- Fraction `a / b` for positive `b`. -/
def Dec.frac (a : Int) (b : Nat) (h : 0 < b) : Dec := ⟨a, b, h⟩

/-- Addition of exact fractions. -/
def Dec.add (a b : Dec) : Dec :=
  ⟨a.num * b.den + b.num * a.den, a.den * b.den, Nat.mul_pos a.den_pos b.den_pos⟩

/-- Multiplication of exact fractions. -/
def Dec.mul (a b : Dec) : Dec :=
  ⟨a.num * b.num, a.den * b.den, Nat.mul_pos a.den_pos b.den_pos⟩

/-- Comparison `a ≤ b` of exact fractions (cross multiplication). -/
def Dec.le (a b : Dec) : Bool :=
  decide (a.num * b.den ≤ b.num * a.den)

/-- Python `max(a, b)`. -/
def Dec.maxD (a b : Dec) : Dec := if Dec.le a b then b else a

/-- Python `min(a, b)`. -/
def Dec.minD (a b : Dec) : Dec := if Dec.le a b then a else b

/-- Python `int(x)`: truncation toward zero. -/
def Dec.trunc (a : Dec) : Int := a.num.tdiv a.den

/-- Numeric value of a digit list (most significant first). -/
def digitsVal (l : List Char) : Nat :=
  l.foldl (fun acc c => 10 * acc + (c.toNat - 48)) 0

/-- Model of Python `float(s)` on the decimal forms that occur as ratings:
    optional surrounding whitespace, optional sign, digits with an optional
    single decimal point (at least one digit overall).  Exponent, `inf` and
    `nan` forms are not modelled; they never occur in the repository's data.
    Returns `none` where Python raises `ValueError`. -/
def parseDec (s : String) : Option Dec :=
  let t := trimL s.data
  let (sgn, body) :=
    match t with
    | '-' :: r => ((-1 : Int), r)
    | '+' :: r => ((1 : Int), r)
    | r => ((1 : Int), r)
  match splitCharL '.' body with
  | [w] =>
    if w ≠ [] ∧ w.all Char.isDigit then
      some ⟨sgn * digitsVal w, 1, Nat.one_pos⟩
    else none
  | [w, f] =>
    if (w ≠ [] ∨ f ≠ []) ∧ w.all Char.isDigit ∧ f.all Char.isDigit then
      some ⟨sgn * (digitsVal w * 10 ^ f.length + digitsVal f), 10 ^ f.length,
            Nat.pos_pow_of_pos _ (by omega)⟩
    else none
  | _ => none

/-- Model of Python `int(s)`: optional whitespace, optional sign, digits only
    (`int("4.5")` raises, matching the `ValueError` path of the source).
    Returns `none` where Python raises `ValueError`. -/
def parseIntStr (s : String) : Option Int :=
  let t := trimL s.data
  let (sgn, body) :=
    match t with
    | '-' :: r => ((-1 : Int), r)
    | '+' :: r => ((1 : Int), r)
    | r => ((1 : Int), r)
  if body ≠ [] ∧ body.all Char.isDigit then some (sgn * digitsVal body) else none

/-- Decidable equality on `Except`, for evaluating the embedded functions on
    concrete inputs. -/
instance exceptDecEq {ε α : Type} [DecidableEq ε] [DecidableEq α] :
    DecidableEq (Except ε α) := fun a b =>
  match a, b with
  | .error e, .error f =>
    if h : e = f then .isTrue (by simp [h]) else .isFalse (by simp [h])
  | .ok x, .ok y =>
    if h : x = y then .isTrue (by simp [h]) else .isFalse (by simp [h])
  | .error _, .ok _ => .isFalse (by simp)
  | .ok _, .error _ => .isFalse (by simp)

/-- Python exception kinds distinguished by the embedded code. -/
inductive PyExc where
  | attributeError
  | valueError
  | typeError
  | keyError
deriving DecidableEq, Repr

/-- Python values that flow through the prospect records of this pipeline.
    Technology lists are lists of strings (the only lists the pipeline
    builds).  JSON/float-valued payloads reaching these records are carried
    as their string or integer forms. -/
inductive PyVal where
  | vNone
  | vStr (s : String)
  | vInt (n : Int)
  | vList (l : List String)
deriving DecidableEq, Repr

open PyVal

/-- Python truthiness of a value. -/
def pyTruthy : PyVal → Bool
  | vNone => false
  | vStr s => s ≠ ""
  | vInt n => n ≠ 0
  | vList l => ¬ l.isEmpty

/-- Python `v == "lit"` for a string literal (never raises). -/
def pyEqStr : PyVal → String → Bool
  | vStr s, t => s = t
  | _, _ => false

/-- Python `v.lower()`: raises `AttributeError` unless `v` is a string. -/
def pyLower : PyVal → Except PyExc String
  | vStr s => .ok (lowerStr s)
  | _ => .error .attributeError

/-- Python `v.startswith(pre)`: raises `AttributeError` unless `v` is a string. -/
def pyStartsWith (v : PyVal) (pre : String) : Except PyExc Bool :=
  match v with
  | vStr s => .ok (startsWithStr s pre)
  | _ => .error .attributeError

/-- Python `float(v)`: `TypeError` on `None`/lists, `ValueError` on an
    unparsable string. -/
def pyFloat : PyVal → Except PyExc Dec
  | vInt n => .ok (Dec.ofInt n)
  | vStr s =>
    match parseDec s with
    | some d => .ok d
    | none => .error .valueError
  | vNone => .error .typeError
  | vList _ => .error .typeError

/-- Python `int(v)`: `TypeError` on `None`/lists, `ValueError` on an
    unparsable string. -/
def pyIntOf : PyVal → Except PyExc Int
  | vInt n => .ok n
  | vStr s =>
    match parseIntStr s with
    | some n => .ok n
    | none => .error .valueError
  | vNone => .error .typeError
  | vList _ => .error .typeError

/-- Python `str(v)`.  `None`, strings and integers are rendered exactly;
    the list rendering is abbreviated (no claim exercises it: `str` is only
    applied to the `taille_entreprise` field, which the pipeline always
    stores as a string). -/
def pyStrOf : PyVal → String
  | vNone => "None"
  | vStr s => s
  | vInt n => toString n
  | vList _ => "[...]"

/-- A Python `Dict[str, Any]` record: key to optional value. -/
def Prospect := String → Option PyVal

/-- `d[k] = v` (functional update). -/
def pset (p : Prospect) (k : String) (v : PyVal) : Prospect :=
  fun k' => if k' = k then some v else p k'

/-- `d.get(k, default)`. -/
def pget (p : Prospect) (k : String) (d : PyVal) : PyVal :=
  (p k).getD d

/-- Remove a key from a record (used to state "this field contributes zero"). -/
def pErase (p : Prospect) (k : String) : Prospect :=
  fun k' => if k' = k then none else p k'

/-- The empty record. -/
def pEmpty : Prospect := fun _ => none

@[simp] theorem pset_eq (p : Prospect) (k : String) (v : PyVal) : pset p k v k = some v := by
  simp [pset]

@[simp] theorem pset_ne (p : Prospect) (k k' : String) (v : PyVal) (h : k' ≠ k) :
    pset p k v k' = p k' := by
  simp [pset, h]

@[simp] theorem pErase_eq (p : Prospect) (k : String) : pErase p k k = none := by
  simp [pErase]

@[simp] theorem pErase_ne (p : Prospect) (k k' : String) (h : k' ≠ k) :
    pErase p k k' = p k' := by
  simp [pErase, h]

/-- Build a concrete record from an association list (for witnesses). -/
def pOf (l : List (String × PyVal)) : Prospect :=
  fun k => (l.find? (fun kv => kv.1 = k)).map (fun kv => kv.2)

/-- Decidable equality of exact fractions (the positivity proof field is
    proof-irrelevant). -/
instance decDecEq : DecidableEq Dec := fun a b =>
  decidable_of_iff (a.num = b.num ∧ a.den = b.den)
    (by cases a; cases b; simp)

end MHProspect

namespace MHProspect

/-! ## Embedding of `scoring.py` (`ProspectScoring`) -/

open PyVal

/-- The nine scoring weights (`self.poids`). -/
structure Poids where
  email : Nat
  telephone : Nat
  linkedin : Nat
  site_web : Nat
  note_google : Nat
  nb_avis : Nat
  taille_entreprise : Nat
  industrie_pertinente : Nat
  technologies_detectees : Nat
deriving DecidableEq, Repr

/-- Default balanced weights. -/
def poidsParDefaut : Poids :=
  { email := 20, telephone := 15, linkedin := 10, site_web := 10,
    note_google := 10, nb_avis := 5, taille_entreprise := 10,
    industrie_pertinente := 15, technologies_detectees := 5 }

/-- `any(mot in service for mot in mots)`. -/
def motsDans (service : String) (mots : List String) : Bool :=
  mots.any (fun m => containsStr service m)

/-- `_determiner_poids_par_service`: adjust the weights from keywords of the
    (lowercased) offered-service string. -/
def determinerPoidsParService (service : String) : Poids :=
  let p := poidsParDefaut
  if motsDans service ["site web", "website", "internet", "web", "développement", "développeur"] then
    { p with site_web := 15, technologies_detectees := 15, email := 18, note_google := 8 }
  else if motsDans service ["marketing", "communication", "publicité", "seo", "réseaux sociaux"] then
    { p with note_google := 20, nb_avis := 15, linkedin := 15, email := 20 }
  else if motsDans service ["conseil", "consulting", "accompagnement", "audit"] then
    { p with linkedin := 25, taille_entreprise := 20, industrie_pertinente := 20, email := 18 }
  else if motsDans service ["commerce", "e-commerce", "boutique", "vente"] then
    { p with note_google := 20, nb_avis := 15, telephone := 18, site_web := 12 }
  else p

/-- The `ProspectScoring` object: the lowercased service string and the
    weights derived from it in `__init__`. -/
structure Scoring where
  service_propose : String
  poids : Poids

/-- `ProspectScoring(service_propose)`. -/
def mkScoring (service : String) : Scoring :=
  let sp := if service = "" then "" else lowerStr service
  ⟨sp, determinerPoidsParService sp⟩

/-- The website signals of `_analyser_site_web` (the `signaux` dict). -/
structure Signaux where
  pasDeSite : Bool
  siteObsolete : Bool
  cmsAncien : Bool
  siteModerne : Bool
  opportuniteRefonte : Bool
deriving DecidableEq, Repr

/-- Build the comma-split, stripped, non-empty technology name list from the
    raw `technologies` value (the shared preamble of `calculer_score`, lines
    123-130, repeated at lines 251-260). -/
def techsListOf (v : PyVal) : List String :=
  if pyTruthy v then
    match v with
    | vStr s => ((splitStr ',' s).map trimStr).filter (fun t => t ≠ "")
    | vList l => l
    | _ => []
  else []

/-- `_analyser_site_web(site_web, technologies)`.  Raises `AttributeError`
    when the website value is truthy but not a string (`startswith`). -/
def analyserSiteWeb (site : PyVal) (techs : List String) : Except PyExc Signaux :=
  let sigInit : Signaux :=
    { pasDeSite := false, siteObsolete := false, cmsAncien := false,
      siteModerne := false, opportuniteRefonte := false }
  match (if pyTruthy site then
           (pyStartsWith site "http").map (fun b => ! b)
         else .ok true : Except PyExc Bool) with
  | .error e => .error e
  | .ok noSite =>
    if noSite then .ok { sigInit with pasDeSite := true }
    else
      let techsLower := techs.map lowerStr
      let cmsAnciens := ["wordpress", "joomla", "drupal", "prestashop"]
      let sig1 :=
        if cmsAnciens.any (fun c => techsLower.contains c) then
          { sigInit with cmsAncien := true, opportuniteRefonte := true }
        else sigInit
      let techsModernes := ["react", "vue", "angular", "next.js"]
      let sig2 :=
        if techsModernes.any (fun c => techsLower.contains c) then
          { sig1 with siteModerne := true }
        else sig1
      .ok sig2

/-- Signal 1: email (status-weighted).  `0.7` and `0.5` are the source's
    fractions. -/
def emailScore (w : Poids) (email st : PyVal) : Dec :=
  if pyTruthy email && pyEqStr st "valid" then Dec.ofInt w.email
  else if pyTruthy email && pyEqStr st "catch-all" then
    (Dec.ofInt w.email).mul (Dec.frac 7 10 (by omega))
  else if pyTruthy email then (Dec.ofInt w.email).mul (Dec.frac 5 10 (by omega))
  else Dec.ofInt 0

/-- Signal 2: telephone. -/
def telephoneScore (w : Poids) (v : PyVal) : Dec :=
  if pyTruthy v then Dec.ofInt w.telephone else Dec.ofInt 0

/-- Signal 3: company LinkedIn. -/
def linkedinScore (w : Poids) (v : PyVal) : Dec :=
  if pyTruthy v then Dec.ofInt w.linkedin else Dec.ofInt 0

/-- Signal 4: website (service-aware), lines 156-185 of `scoring.py`.
    Re-evaluates `site_web and site_web.startswith("http")` like the source. -/
def siteWebScore (sc : Scoring) (sig : Signaux) (site : PyVal) (techs : List String) :
    Except PyExc Dec :=
  let service := lowerStr sc.service_propose
  if sig.pasDeSite then
    if motsDans service ["web", "site", "développement", "création site"] then
      .ok (Dec.ofInt (sc.poids.site_web + 10))
    else .ok (Dec.ofInt 0)
  else if pyTruthy site then
    match pyStartsWith site "http" with
    | .error e => .error e
    | .ok b =>
      if b then
        let base := Dec.ofInt sc.poids.site_web
        let bonus : Dec :=
          if motsDans service ["web", "site", "développement", "création site"] then
            if sig.opportuniteRefonte || sig.cmsAncien then Dec.ofInt 8
            else if sig.siteModerne then Dec.ofInt 2
            else if techs.isEmpty then Dec.ofInt 5
            else Dec.ofInt 0
          else if motsDans service ["marketing", "communication", "seo", "visibilité"] then
            if sig.siteModerne then Dec.ofInt 4
            else if ¬ techs.isEmpty then Dec.ofInt 3
            else Dec.ofInt 2
          else Dec.ofInt 0
        .ok (base.add bonus)
      else .ok (Dec.ofInt 0)
  else .ok (Dec.ofInt 0)

/-- Signal 5: Google rating, tiered; `float` parse failures are caught by the
    source's `except (ValueError, TypeError)` and contribute zero. -/
def noteGoogleScore (w : Poids) (v : PyVal) : Dec :=
  if pyTruthy v then
    match pyFloat v with
    | .ok note =>
      let wq := Dec.ofInt w.note_google
      if Dec.le (Dec.frac 45 10 (by omega)) note then wq
      else if Dec.le (Dec.ofInt 4) note then wq.mul (Dec.frac 8 10 (by omega))
      else if Dec.le (Dec.frac 35 10 (by omega)) note then wq.mul (Dec.frac 6 10 (by omega))
      else wq.mul (Dec.frac 4 10 (by omega))
    | .error _ => Dec.ofInt 0
  else Dec.ofInt 0

/-- Signal 6: review count, tiered; `int` parse failures are caught and
    contribute zero. -/
def nbAvisScore (w : Poids) (v : PyVal) : Dec :=
  if pyTruthy v then
    match pyIntOf v with
    | .ok nb =>
      let wq := Dec.ofInt w.nb_avis
      if 50 ≤ nb then wq
      else if 20 ≤ nb then wq.mul (Dec.frac 8 10 (by omega))
      else if 10 ≤ nb then wq.mul (Dec.frac 6 10 (by omega))
      else wq.mul (Dec.frac 4 10 (by omega))
    | .error _ => Dec.ofInt 0
  else Dec.ofInt 0

/-- Signal 7: company-size bracket (`str(taille).lower()` never raises). -/
def tailleScore (w : Poids) (v : PyVal) : Dec :=
  if pyTruthy v then
    let tailleLower := lowerStr (pyStrOf v)
    let wq := Dec.ofInt w.taille_entreprise
    if motsDans tailleLower ["11-50", "51-200", "201-500"] then wq
    else if motsDans tailleLower ["1-10", "2-10"] then wq.mul (Dec.frac 8 10 (by omega))
    else if motsDans tailleLower ["501-1000", "1001-5000"] then wq.mul (Dec.frac 7 10 (by omega))
    else wq.mul (Dec.frac 6 10 (by omega))
  else Dec.ofInt 0

/-- Signal 8: industry relevance.  The source computes
    `prospect.get("industrie", "").lower()` first, which raises
    `AttributeError` on any non-string value (including `None`). -/
def industrieScore (sc : Scoring) (v : PyVal) : Except PyExc Dec :=
  match pyLower v with
  | .error e => .error e
  | .ok industrie =>
    let service := lowerStr sc.service_propose
    let wq := Dec.ofInt sc.poids.industrie_pertinente
    if industrie ≠ "" then
      if motsDans service ["web", "site", "développement"] then
        if motsDans industrie ["commerce", "retail", "restaurant", "hotel", "service"] then .ok wq
        else .ok (wq.mul (Dec.frac 7 10 (by omega)))
      else if motsDans service ["marketing", "communication"] then
        if motsDans industrie ["commerce", "retail", "restaurant", "service", "professional"] then .ok wq
        else .ok (wq.mul (Dec.frac 8 10 (by omega)))
      else .ok (wq.mul (Dec.frac 9 10 (by omega)))
    else .ok (Dec.ofInt 0)

/-- Signal 9: detected technologies (service-aware), lines 250-279.  The
    technology names here are strings by construction, so the per-element
    `tech.lower()` calls cannot raise in this embedding. -/
def technologiesScore (sc : Scoring) (v : PyVal) : Dec :=
  let techsList := techsListOf v
  if ¬ techsList.isEmpty then
    let service := lowerStr sc.service_propose
    let wq := Dec.ofInt sc.poids.technologies_detectees
    if motsDans service ["web", "site", "développement", "création site"] then
      let cmsAnciens := ["wordpress", "prestashop", "joomla", "drupal"]
      if techsList.any (fun t => cmsAnciens.contains (lowerStr t)) then wq
      else if techsList.any (fun t => ["react", "vue", "angular"].contains (lowerStr t)) then
        wq.mul (Dec.frac 6 10 (by omega))
      else wq.mul (Dec.frac 8 10 (by omega))
    else wq.mul (Dec.frac 9 10 (by omega))
  else Dec.ofInt 0

/-- The unclamped `score_total` of `calculer_score` (sum of the nine signal
    contributions), with the source's three uncaught raising sites
    (`_analyser_site_web`, the website signal, the industry `.lower()`). -/
def scoreTotal (sc : Scoring) (p : Prospect) : Except PyExc Dec :=
  let siteW := pget p "site_web" (vStr "")
  let techs := techsListOf (pget p "technologies" (vStr ""))
  match analyserSiteWeb siteW techs with
  | .error e => .error e
  | .ok sig =>
    match siteWebScore sc sig siteW techs with
    | .error e => .error e
    | .ok s4 =>
      match industrieScore sc (pget p "industrie" (vStr "")) with
      | .error e => .error e
      | .ok s8 =>
        .ok ((((((((emailScore sc.poids (pget p "email" vNone) (pget p "email_status" vNone)).add
          (telephoneScore sc.poids (pget p "telephone" vNone))).add
          (linkedinScore sc.poids (pget p "linkedin_entreprise" vNone))).add s4).add
          (noteGoogleScore sc.poids (pget p "note_google" vNone))).add
          (nbAvisScore sc.poids (pget p "nb_avis" vNone))).add
          (tailleScore sc.poids (pget p "taille_entreprise" vNone))).add
          ((s8).add (technologiesScore sc (pget p "technologies" (vStr "")))))

/-- `calculer_score`: clamp the total to `[0, 100]` and truncate to an
    integer (`int(min(100, max(0, score_total)))`). -/
def calculerScore (sc : Scoring) (p : Prospect) : Except PyExc Int :=
  (scoreTotal sc p).map (fun t => ((Dec.ofInt 100).minD ((Dec.ofInt 0).maxD t)).trunc)

/-- `obtenir_categorie_score`. -/
def obtenirCategorieScore (score : Int) : String :=
  if 80 ≤ score then "excellent"
  else if 60 ≤ score then "bon"
  else if 40 ≤ score then "moyen"
  else "faible"

end MHProspect

namespace MHProspect

/-! ## Lemmas about the scorer, and claims C1, C2, C8 -/

open PyVal

/-- The final clamp-and-truncate of `calculer_score` lands in `[0, 100]`
    whatever the raw total is. -/
theorem clamp_trunc_bounds (t : Dec) :
    0 ≤ ((Dec.ofInt 100).minD ((Dec.ofInt 0).maxD t)).trunc ∧
    ((Dec.ofInt 100).minD ((Dec.ofInt 0).maxD t)).trunc ≤ 100 := by
  obtain ⟨n, d, hd⟩ := t
  simp only [Dec.maxD, Dec.minD, Dec.le, Dec.ofInt, Dec.trunc]
  split_ifs with h1 h2 h3 <;>
    simp only [decide_eq_true_eq] at *
  · -- 0 ≤ t and 100 ≤ t : result is 100
    constructor <;> decide
  · -- 0 ≤ t and t < 100 : result is t.trunc
    have hn : (0 : Int) ≤ n := by omega
    have hdpos : (0 : Int) < (d : Int) := by exact_mod_cast hd
    have hlt : n < 100 * d := by omega
    refine ⟨Int.tdiv_nonneg hn hdpos.le, ?_⟩
    rw [Int.tdiv_eq_ediv hn hdpos.le]
    calc n / (d : Int) ≤ (100 * d) / d := Int.ediv_le_ediv hdpos hlt.le
      _ = 100 := Int.mul_ediv_cancel _ hdpos.ne.symm
  · -- t < 0 and 100 ≤ 0 : impossible branch, still provable
    constructor <;> decide
  · -- t < 0 : result is 0
    constructor <;> decide

/-- A record value is a string or absent. -/
def isStrOpt : Option PyVal → Bool
  | none => true
  | some (vStr _) => true
  | some _ => false

/-- Well-typedness assumption for the scorer: the two record fields on which
    `calculer_score` calls a string method unconditionally (`site_web` via
    `startswith`, `industrie` via `lower`) are strings when present.  Every
    other field may hold any value. -/
def WellTypedProspect (p : Prospect) : Prop :=
  isStrOpt (p "site_web") = true ∧ isStrOpt (p "industrie") = true

instance (p : Prospect) : Decidable (WellTypedProspect p) := by
  unfold WellTypedProspect
  infer_instance

theorem isStrOpt_getD {o : Option PyVal} (h : isStrOpt o = true) :
    ∃ s, o.getD (vStr "") = vStr s := by
  match o with
  | none => exact ⟨"", rfl⟩
  | some (vStr s) => exact ⟨s, rfl⟩
  | some vNone => simp [isStrOpt] at h
  | some (vInt _) => simp [isStrOpt] at h
  | some (vList _) => simp [isStrOpt] at h

theorem analyserSiteWeb_str_ok (s : String) (techs : List String) :
    ∃ sig, analyserSiteWeb (vStr s) techs = .ok sig := by
  unfold analyserSiteWeb
  cases htr : pyTruthy (vStr s) <;>
    simp only [htr, Bool.false_eq_true, if_true, if_false, pyStartsWith, Except.map] <;>
    first
      | exact ⟨_, rfl⟩
      | (split <;> exact ⟨_, rfl⟩)

theorem siteWebScore_str_ok (sc : Scoring) (sig : Signaux) (s : String)
    (techs : List String) : ∃ q, siteWebScore sc sig (vStr s) techs = .ok q := by
  unfold siteWebScore
  split
  · simp only []
    split <;> exact ⟨_, rfl⟩
  · split
    · simp only [pyStartsWith]
      split <;> exact ⟨_, rfl⟩
    · exact ⟨_, rfl⟩

theorem industrieScore_str_ok (sc : Scoring) (s : String) :
    ∃ q, industrieScore sc (vStr s) = .ok q := by
  unfold industrieScore
  simp only [pyLower]
  split
  · split
    · split <;> exact ⟨_, rfl⟩
    · split
      · split <;> exact ⟨_, rfl⟩
      · exact ⟨_, rfl⟩
  · exact ⟨_, rfl⟩

theorem scoreTotal_ok (sc : Scoring) (p : Prospect) (h : WellTypedProspect p) :
    ∃ t, scoreTotal sc p = .ok t := by
  obtain ⟨hsite, hind⟩ := h
  obtain ⟨ss, hss⟩ := isStrOpt_getD hsite
  obtain ⟨si, hsi⟩ := isStrOpt_getD hind
  have hss' : pget p "site_web" (vStr "") = vStr ss := hss
  have hsi' : pget p "industrie" (vStr "") = vStr si := hsi
  obtain ⟨sig, hsig⟩ :=
    analyserSiteWeb_str_ok ss (techsListOf (pget p "technologies" (vStr "")))
  obtain ⟨s4, hs4⟩ :=
    siteWebScore_str_ok sc sig ss (techsListOf (pget p "technologies" (vStr "")))
  obtain ⟨s8, hs8⟩ := industrieScore_str_ok sc si
  unfold scoreTotal
  rw [hss', hsi']
  simp only [hsig, hs4, hs8]
  exact ⟨_, rfl⟩

end MHProspect

namespace MHProspect

open PyVal

theorem pget_pErase_ne (p : Prospect) (k k' : String) (d : PyVal) (h : k' ≠ k) :
    pget (pErase p k) k' d = pget p k' d := by
  simp [pget, pErase, h]

theorem pget_pErase_self (p : Prospect) (k : String) (d : PyVal) :
    pget (pErase p k) k d = d := by
  simp [pget, pErase]

/-- An unparsable rating string scores exactly like an absent rating. -/
theorem noteGoogleScore_unparsable (w : Poids) (s : String) (h : parseDec s = none) :
    noteGoogleScore w (vStr s) = noteGoogleScore w vNone := by
  by_cases hs : s = "" <;>
    simp [noteGoogleScore, pyTruthy, pyFloat, hs, h]

/-- An unparsable review-count string scores exactly like an absent count. -/
theorem nbAvisScore_unparsable (w : Poids) (s : String) (h : parseIntStr s = none) :
    nbAvisScore w (vStr s) = nbAvisScore w vNone := by
  by_cases hs : s = "" <;>
    simp [nbAvisScore, pyTruthy, pyIntOf, hs, h]

theorem scoreTotal_erase_note (sc : Scoring) (p : Prospect) (s : String)
    (hp : p "note_google" = some (vStr s)) (hparse : parseDec s = none) :
    scoreTotal sc p = scoreTotal sc (pErase p "note_google") := by
  have hv : pget p "note_google" vNone = vStr s := by simp [pget, hp]
  unfold scoreTotal
  rw [pget_pErase_ne p _ "site_web" _ (by decide),
    pget_pErase_ne p _ "technologies" _ (by decide),
    pget_pErase_ne p _ "industrie" _ (by decide),
    pget_pErase_ne p _ "email" _ (by decide),
    pget_pErase_ne p _ "email_status" _ (by decide),
    pget_pErase_ne p _ "telephone" _ (by decide),
    pget_pErase_ne p _ "linkedin_entreprise" _ (by decide),
    pget_pErase_ne p _ "nb_avis" _ (by decide),
    pget_pErase_ne p _ "taille_entreprise" _ (by decide),
    pget_pErase_self p "note_google" vNone,
    hv, noteGoogleScore_unparsable sc.poids s hparse]

theorem scoreTotal_erase_avis (sc : Scoring) (p : Prospect) (s : String)
    (hp : p "nb_avis" = some (vStr s)) (hparse : parseIntStr s = none) :
    scoreTotal sc p = scoreTotal sc (pErase p "nb_avis") := by
  have hv : pget p "nb_avis" vNone = vStr s := by simp [pget, hp]
  unfold scoreTotal
  rw [pget_pErase_ne p _ "site_web" _ (by decide),
    pget_pErase_ne p _ "technologies" _ (by decide),
    pget_pErase_ne p _ "industrie" _ (by decide),
    pget_pErase_ne p _ "email" _ (by decide),
    pget_pErase_ne p _ "email_status" _ (by decide),
    pget_pErase_ne p _ "telephone" _ (by decide),
    pget_pErase_ne p _ "linkedin_entreprise" _ (by decide),
    pget_pErase_ne p _ "note_google" _ (by decide),
    pget_pErase_ne p _ "taille_entreprise" _ (by decide),
    pget_pErase_self p "nb_avis" vNone,
    hv, nbAvisScore_unparsable sc.poids s hparse]

/-- C1: for every prospect record whose present fields are well typed, and
    for every configured service string, `calculer_score` returns an integer
    score `n` with `0 ≤ n ≤ 100`.  (Only `site_web` and `industrie` need the
    typing assumption: all other optional fields may hold arbitrary values,
    present or absent.) -/
theorem claim_C1_score_range (service : String) (p : Prospect)
    (h : WellTypedProspect p) :
    ∃ n, calculerScore (mkScoring service) p = .ok n ∧ 0 ≤ n ∧ n ≤ 100 := by
  obtain ⟨t, ht⟩ := scoreTotal_ok (mkScoring service) p h
  exact ⟨_, by simp [calculerScore, ht, Except.map],
    (clamp_trunc_bounds t).1, (clamp_trunc_bounds t).2⟩

/-- Example prospect for the C1 witness: every listed optional field present. -/
def pScoreEx : Prospect :=
  pOf [("email", vStr "info@maison-bleue.ch"),
       ("email_status", vStr "catch-all"),
       ("telephone", vStr "+41 22 345 67 89"),
       ("linkedin_entreprise", vStr "https://linkedin.com/company/maison-bleue"),
       ("site_web", vStr "https://maison-bleue.ch"),
       ("note_google", vStr "4.2"),
       ("nb_avis", vStr "27"),
       ("taille_entreprise", vStr "11-50"),
       ("industrie", vStr "restaurant")]

/-- Witness for C1 at a concrete prospect and service string. -/
theorem claim_C1_score_range_witness :
    WellTypedProspect pScoreEx ∧
    ∃ n, calculerScore (mkScoring "marketing digital") pScoreEx = .ok n ∧
      0 ≤ n ∧ n ≤ 100 :=
  ⟨by decide, claim_C1_score_range "marketing digital" pScoreEx (by decide)⟩

/-- C2: `obtenir_categorie_score` maps every integer score to exactly one of
    the four categories, with boundaries 80/60/40, and takes the stated
    values at 80, 79, 60, 59, 40, 39. -/
theorem claim_C2_category_boundaries :
    (∀ s : Int, 80 ≤ s → obtenirCategorieScore s = "excellent") ∧
    (∀ s : Int, 60 ≤ s → s ≤ 79 → obtenirCategorieScore s = "bon") ∧
    (∀ s : Int, 40 ≤ s → s ≤ 59 → obtenirCategorieScore s = "moyen") ∧
    (∀ s : Int, s < 40 → obtenirCategorieScore s = "faible") ∧
    (∀ s : Int, obtenirCategorieScore s = "excellent" ∨ obtenirCategorieScore s = "bon" ∨
      obtenirCategorieScore s = "moyen" ∨ obtenirCategorieScore s = "faible") ∧
    obtenirCategorieScore 80 = "excellent" ∧ obtenirCategorieScore 79 = "bon" ∧
    obtenirCategorieScore 60 = "bon" ∧ obtenirCategorieScore 59 = "moyen" ∧
    obtenirCategorieScore 40 = "moyen" ∧ obtenirCategorieScore 39 = "faible" := by
  refine ⟨?_, ?_, ?_, ?_, ?_, by decide, by decide, by decide, by decide, by decide, by decide⟩
  · intro s h
    unfold obtenirCategorieScore
    split_ifs <;> first | rfl | omega
  · intro s h h'
    unfold obtenirCategorieScore
    split_ifs <;> first | rfl | omega
  · intro s h h'
    unfold obtenirCategorieScore
    split_ifs <;> first | rfl | omega
  · intro s h
    unfold obtenirCategorieScore
    split_ifs <;> first | rfl | omega
  · intro s
    unfold obtenirCategorieScore
    split_ifs <;> simp

/-- Witness for C2 at concrete scores. -/
theorem claim_C2_category_boundaries_witness :
    obtenirCategorieScore 85 = "excellent" ∧ obtenirCategorieScore 55 = "moyen" :=
  ⟨claim_C2_category_boundaries.1 85 (by decide),
   (claim_C2_category_boundaries.2.2.1) 55 (by decide) (by decide)⟩

/-- Counterexample to C8 as stated: with `industrie = None` (and every other
    field absent), `calculer_score` raises `AttributeError` from
    `prospect.get("industrie", "").lower()` and aborts without returning a
    score, so the function is not exception-free for every record input. -/
theorem counterexample_C8_industrie_none :
    calculerScore (mkScoring "") (pset pEmpty "industrie" vNone) =
      .error .attributeError := by decide

/-- C8 (amended): parse failures of one signal never abort the others —
    scoring is exception-free on well-typed records, and an unparsable
    Google-rating or review-count string contributes exactly zero (the record
    scores as if the field were absent).  What the counterexample removes
    from the original claim: a non-string `industrie` value such as `None`
    does raise and aborts the whole scoring call (the orchestrator catches
    this and falls back to score 0). -/
theorem claim_C8_defensive_signals :
    (∀ (sc : Scoring) (p : Prospect), WellTypedProspect p →
      ∃ n, calculerScore sc p = .ok n) ∧
    (∀ (sc : Scoring) (p : Prospect) (s : String),
      p "note_google" = some (vStr s) → parseDec s = none →
      calculerScore sc p = calculerScore sc (pErase p "note_google")) ∧
    (∀ (sc : Scoring) (p : Prospect) (s : String),
      p "nb_avis" = some (vStr s) → parseIntStr s = none →
      calculerScore sc p = calculerScore sc (pErase p "nb_avis")) := by
  refine ⟨?_, ?_, ?_⟩
  · intro sc p h
    obtain ⟨t, ht⟩ := scoreTotal_ok sc p h
    exact ⟨((Dec.ofInt 100).minD ((Dec.ofInt 0).maxD t)).trunc,
      by simp [calculerScore, ht, Except.map]⟩
  · intro sc p s hp hparse
    unfold calculerScore
    rw [scoreTotal_erase_note sc p s hp hparse]
  · intro sc p s hp hparse
    unfold calculerScore
    rw [scoreTotal_erase_avis sc p s hp hparse]

/-- Example prospect for the C8 witness: unparsable rating and review count. -/
def pParseEx : Prospect :=
  pOf [("note_google", vStr "N/A"),
       ("nb_avis", vStr "beaucoup"),
       ("telephone", vStr "+41 21 000 11 22")]

/-- Witness for C8 at a concrete record with unparsable numeric fields. -/
theorem claim_C8_defensive_signals_witness :
    (∃ n, calculerScore (mkScoring "conseil") pParseEx = .ok n) ∧
    calculerScore (mkScoring "conseil") pParseEx =
      calculerScore (mkScoring "conseil") (pErase pParseEx "note_google") :=
  ⟨(claim_C8_defensive_signals.1 (mkScoring "conseil") pParseEx (by decide)),
   (claim_C8_defensive_signals.2.1 (mkScoring "conseil") pParseEx "N/A" (by decide) (by decide))⟩

end MHProspect

namespace MHProspect

/-! ## Embedding of the geography and relevance filter of `main.py` -/

open PyVal

/-- `_detecter_pays_entreprise(nom, site_web)`: infer a normalized
    country/region code from the website domain, then from geographic
    keywords (the source's nested `if "québec" ...` block falls through to
    the later checks when neither inner condition fires; the flat chain
    below is that same control flow written out). -/
def detecterPaysEntreprise (nom site : String) : Option String :=
  let texte := lowerStr (nom ++ " " ++ site)
  let siteL := lowerStr site
  if containsStr siteL ".qc.ca" || containsStr siteL ".quebec" then some "qc"
  else if containsStr siteL ".ch" then some "ch"
  else if containsStr siteL ".fr" && !containsStr siteL ".qc.ca" then some "fr"
  else if containsStr siteL ".ca" && !containsStr siteL ".qc.ca" then some "ca"
  else if containsStr siteL ".be" then some "be"
  else if containsStr siteL ".lu" then some "lu"
  else if (containsStr texte "québec" || containsStr texte "quebec") &&
          (containsStr texte "montréal" || containsStr texte "montreal") then some "qc"
  else if (containsStr texte "québec" || containsStr texte "quebec") &&
          containsStr texte "canada" then some "qc"
  else if (containsStr texte "montréal" || containsStr texte "montreal") &&
          containsStr texte "canada" then some "qc"
  else if containsStr texte "suisse" || containsStr texte "switzerland" then some "ch"
  else if containsStr texte "france" && !containsStr texte "quebec" then some "fr"
  else if containsStr texte "canada" && !containsStr texte "québec" &&
          !containsStr texte "quebec" then some "ca"
  else none

/-- `_normaliser_pays_cible(pays)`. -/
def normaliserPaysCible (pays : String) : String :=
  let paysLower := trimStr (lowerStr pays)
  if ["suisse", "switzerland", "schweiz", "ch"].contains paysLower then "ch"
  else if ["france", "fr"].contains paysLower then "fr"
  else if ["québec", "quebec", "qc", "montréal", "montreal"].contains paysLower then "qc"
  else if ["canada", "ca"].contains paysLower then "ca"
  else if ["belgium", "belgique", "belgie", "be"].contains paysLower then "be"
  else if ["luxembourg", "lu"].contains paysLower then "lu"
  else paysLower

/-- `_pays_correspond(pays_cible, pays_resultat)`. -/
def paysCorrespond (paysCible paysResultat : String) : Bool :=
  let cible := normaliserPaysCible paysCible
  if cible = "qc" then paysResultat = "qc"
  else if cible = "ca" then ["ca", "qc"].contains paysResultat
  else if cible = "ch" then paysResultat = "ch"
  else if cible = "fr" then paysResultat = "fr"
  else paysResultat = cible

/-- The non-geographic exclusions of `_est_entreprise_non_pertinente`
    (large-chain domains, suspicious URL patterns, real estate, large
    brands, government, press), lines 231-298 of `main.py`. -/
def nonPertinenteHorsGeo (nom site : String) : Bool :=
  let nomLower := lowerStr nom
  let siteLower := lowerStr site
  let texteComplet := nomLower ++ " " ++ siteLower
  let domainesExclus :=
    ["accor.com", "booking.com", "expedia.com", "tripadvisor.com",
     "airbnb.com", "trivago.com", "agoda.com", "hotels.com",
     "groupon.com", "uber.com", "deliveroo.com", "justeat.com"]
  let patternsExclus :=
    ["/restaurant-", "/hotel-", "/shop-", "/store-", "/location-",
     ".accor.com", ".booking.", ".expedia.", ".tripadvisor.",
     "/fr/restaurant", "/fr/hotel", "/en/restaurant", "/en/hotel"]
  let immobilier :=
    ["immobilier", "real estate", "agence immobilière",
     "homegate", "immoscout", "immoweb"]
  let grandesEntreprises :=
    ["coop", "migros", "denner", "aldi", "lidl", "manor", "globus",
     "galaxus", "digitec", "amazon", "booking", "trivago", "expedia",
     "comparis", "ricardo", "anibis", "homegate", "immoscout", "immoweb",
     "accor", "expedia", "tripadvisor", "airbnb", "trivago", "hotels.com",
     "marriott", "hilton", "hyatt", "novotel", "ibis", "mercure", "sofitel",
     "mcdonald", "burger king", "kfc", "subway", "pizza hut", "domino",
     "starbucks", "nespresso", "pret a manger",
     "zara", "h&m", "mango", "bershka", "pull & bear", "stradivarius",
     "c&a", "primark", "new look", "river island",
     "ikea", "conforama", "pfister", "micasa", "möbel pfister",
     "media markt", "fnac", "saturn", "boulanger", "darty",
     "ubs", "credit suisse", "raiffeisen", "postfinance", "swisscom",
     "sunrise", "orange", "salt", "telecom",
     "nike", "adidas", "puma", "decathlon", "interdiscount", "interio",
     "rts", "24heures", "lematin", "20min", "letemps", "tdg", "blick", "srf", "nzz",
     "filiale", "succursale", "branch", "subsidiary"]
  let gouvernemental :=
    ["ville-", "commune-", "administration", "canton", "ge.ch", "admin.ch", ".gov"]
  let medias :=
    ["rts.ch", "24heures.ch", "lematin.ch", "20min.ch",
     "letemps.ch", "tdg.ch", "blick.ch", "srf.ch", "nzz.ch",
     "rts", "24heures", "20 minutes"]
  domainesExclus.any (fun d => containsStr siteLower d) ||
  patternsExclus.any (fun d => containsStr siteLower d) ||
  immobilier.any (fun d => containsStr texteComplet d) ||
  grandesEntreprises.any (fun d => containsStr texteComplet d) ||
  gouvernemental.any (fun d => containsStr texteComplet d) ||
  medias.any (fun d => containsStr texteComplet d)

/-- `_est_entreprise_non_pertinente(nom, site_web)`: the dynamic geographic
    check (only when a target country `self.pays` is configured, i.e.
    truthy), then the static exclusions. -/
def estEntrepriseNonPertinente (pays nom site : String) : Bool :=
  let geoRejet :=
    if pays ≠ "" then
      match detecterPaysEntreprise nom site with
      | some r => ! paysCorrespond pays r
      | none => false
    else false
  geoRejet || nonPertinenteHorsGeo nom site

end MHProspect

namespace MHProspect

open PyVal

/-- C3: when a target country is configured, a candidate whose detected
    country conflicts with it is rejected; when detection yields no signal,
    the geographic check never rejects (the verdict is exactly the
    non-geographic one, which does not depend on the configured country);
    and in particular, with target "Suisse", any candidate whose website
    contains ".qc.ca" is rejected. -/
theorem claim_C3_geographic_filter :
    (∀ (pays nom site r : String), pays ≠ "" →
      detecterPaysEntreprise nom site = some r → paysCorrespond pays r = false →
      estEntrepriseNonPertinente pays nom site = true) ∧
    (∀ (pays nom site : String), detecterPaysEntreprise nom site = none →
      estEntrepriseNonPertinente pays nom site = nonPertinenteHorsGeo nom site) ∧
    (∀ nom : String,
      estEntrepriseNonPertinente "Suisse" nom "https://boulangerie-tremblay.qc.ca" = true) := by
  refine ⟨?_, ?_, ?_⟩
  · intro pays nom site r hp hd hm
    simp [estEntrepriseNonPertinente, hd, hm, hp]
  · intro pays nom site hd
    simp [estEntrepriseNonPertinente, hd]
  · intro nom
    have hd : detecterPaysEntreprise nom "https://boulangerie-tremblay.qc.ca" = some "qc" := by
      unfold detecterPaysEntreprise
      rw [if_pos (by decide)]
    simp [estEntrepriseNonPertinente, hd, show paysCorrespond "Suisse" "qc" = false from by decide]

/-- Witness for C3 at concrete inputs (all three conjuncts instantiated). -/
theorem claim_C3_geographic_filter_witness :
    estEntrepriseNonPertinente "Suisse" "Garage Tremblay" "https://garage.qc.ca" = true ∧
    estEntrepriseNonPertinente "Suisse" "Atelier Morges" "https://atelier-morges.org" =
      nonPertinenteHorsGeo "Atelier Morges" "https://atelier-morges.org" ∧
    estEntrepriseNonPertinente "Suisse" "Boulangerie Tremblay"
      "https://boulangerie-tremblay.qc.ca" = true :=
  ⟨claim_C3_geographic_filter.1 "Suisse" "Garage Tremblay" "https://garage.qc.ca" "qc"
      (by decide) (by decide) (by decide),
   claim_C3_geographic_filter.2.1 "Suisse" "Atelier Morges" "https://atelier-morges.org"
      (by decide),
   claim_C3_geographic_filter.2.2 "Boulangerie Tremblay"⟩

/-- C10: the Canada/Québec geography match is asymmetric.  When the
    configured target normalizes to "ca", both detected "ca" and detected
    "qc" are accepted; when it normalizes to "qc", detected "qc" is accepted
    but detected "ca" is rejected. -/
theorem claim_C10_canada_quebec_asymmetry :
    (∀ cible : String, normaliserPaysCible cible = "ca" →
      paysCorrespond cible "ca" = true ∧ paysCorrespond cible "qc" = true) ∧
    (∀ cible : String, normaliserPaysCible cible = "qc" →
      paysCorrespond cible "qc" = true ∧ paysCorrespond cible "ca" = false) := by
  constructor <;> intro cible h <;> constructor <;> simp [paysCorrespond, h]

/-- Witness for C10 at the concrete targets "Canada" and "Québec". -/
theorem claim_C10_canada_quebec_asymmetry_witness :
    (paysCorrespond "Canada" "ca" = true ∧ paysCorrespond "Canada" "qc" = true) ∧
    (paysCorrespond "Québec" "qc" = true ∧ paysCorrespond "Québec" "ca" = false) :=
  ⟨claim_C10_canada_quebec_asymmetry.1 "Canada" (by decide),
   claim_C10_canada_quebec_asymmetry.2 "Québec" (by decide)⟩

end MHProspect

namespace MHProspect

/-! ## Embedding of `database.py` (`ProspectDatabase.ajouter_prospect`)

The `prospects` table is created with `UNIQUE(nom_entreprise, site_web)` and
`nom_entreprise TEXT NOT NULL`; insertion uses `INSERT OR IGNORE`.  SQLite
semantics embedded here: a composite UNIQUE index compares two rows equal
only when every indexed column compares equal, and `NULL` compares distinct
from everything (including another `NULL`); `INSERT OR IGNORE` silently skips
a row that violates UNIQUE or NOT NULL instead of raising `IntegrityError`,
so the `except sqlite3.IntegrityError` handler of `ajouter_prospect` is
never reached by a duplicate key.  The non-key columns of the 20-column
insert are bundled in `autres`; `id` is `AUTOINCREMENT`.  The Python-level
return value is the fresh rowid on a real insert and `none` on a skipped
one (the source returns the stale `cursor.lastrowid` there; no claim
depends on the returned id). -/

/-- One stored row of the `prospects` table. -/
structure Row where
  id : Nat
  nom_entreprise : Option String
  site_web : Option String
  autres : List (Option String)
deriving DecidableEq, Repr

/-- The table plus the AUTOINCREMENT counter. -/
structure DB where
  rows : List Row
  nextId : Nat
deriving DecidableEq, Repr

/-- The empty database after `_init_database`. -/
def dbVide : DB := ⟨[], 1⟩

/-- SQLite equality of two nullable column values inside a UNIQUE index:
    `NULL` is distinct from everything. -/
def sqliteEq : Option String → Option String → Bool
  | some a, some b => a = b
  | _, _ => false

/-- `ajouter_prospect(prospect_data)`: `INSERT OR IGNORE` keyed on
    `(nom_entreprise, site_web)`. -/
def ajouterProspect (db : DB) (nom site : Option String) (autres : List (Option String)) :
    DB × Option Nat :=
  if nom = none then (db, none)
  else if db.rows.any (fun r => sqliteEq r.nom_entreprise nom && sqliteEq r.site_web site) then
    (db, none)
  else
    ({ rows := db.rows ++ [⟨db.nextId, nom, site, autres⟩], nextId := db.nextId + 1 },
     some db.nextId)

end MHProspect

namespace MHProspect

/-- Counterexample to C6 as stated: with a `NULL` website, inserting the
    same `(nom_entreprise, site_web)` pair twice grows the table from one
    row to two — SQLite's UNIQUE index treats every `NULL` as distinct, so
    the `(name, NULL)` key never deduplicates. -/
theorem counterexample_C6_null_site_web :
    ((ajouterProspect (ajouterProspect dbVide (some "Atelier Luthier") none []).1
        (some "Atelier Luthier") none []).1).rows.length = 2 ∧
    ((ajouterProspect dbVide (some "Atelier Luthier") none []).1).rows.length = 1 := by
  decide

/-- C6 (amended): insertion is idempotent on the key
    `(nom_entreprise, site_web)` whenever both key columns are non-NULL:
    repeating an insert with the same pair leaves the database state — in
    particular the row count — unchanged, and the duplicate is silently
    ignored (no error, `INSERT OR IGNORE` never raises `IntegrityError`).
    What the counterexample removes from the original claim: with a NULL
    `site_web` the pair never conflicts with itself and duplicates
    accumulate. -/
theorem claim_C6_insert_idempotent (db : DB) (nom site : String)
    (autres autres2 : List (Option String)) :
    (ajouterProspect (ajouterProspect db (some nom) (some site) autres).1
        (some nom) (some site) autres2).1 =
      (ajouterProspect db (some nom) (some site) autres).1 ∧
    ((ajouterProspect (ajouterProspect db (some nom) (some site) autres).1
        (some nom) (some site) autres2).1).rows.length =
      ((ajouterProspect db (some nom) (some site) autres).1).rows.length := by
  have main :
      (ajouterProspect (ajouterProspect db (some nom) (some site) autres).1
        (some nom) (some site) autres2).1 =
      (ajouterProspect db (some nom) (some site) autres).1 := by
    unfold ajouterProspect
    simp only [reduceCtorEq, if_false]
    by_cases hdup :
        db.rows.any (fun r => sqliteEq r.nom_entreprise (some nom) &&
          sqliteEq r.site_web (some site)) = true
    · simp [hdup]
    · simp only [hdup, if_false, Bool.false_eq_true, if_neg]
      simp [List.any_append, sqliteEq, hdup]
  exact ⟨main, by rw [main]⟩

/-- Witness for C6 at a concrete database and key. -/
theorem claim_C6_insert_idempotent_witness :
    (ajouterProspect (ajouterProspect dbVide (some "Fromagerie du Lac")
        (some "https://fromagerie-du-lac.ch") [some "a"]).1
      (some "Fromagerie du Lac") (some "https://fromagerie-du-lac.ch") [some "b"]).1 =
      (ajouterProspect dbVide (some "Fromagerie du Lac")
        (some "https://fromagerie-du-lac.ch") [some "a"]).1 :=
  (claim_C6_insert_idempotent dbVide "Fromagerie du Lac" "https://fromagerie-du-lac.ch"
    [some "a"] [some "b"]).1

end MHProspect

namespace MHProspect

/-! ## Embedding of `traiter_prospect` (`main.py`, lines 403-631)

The external adapter calls (Apollo, Hunter, Google Maps, ZeroBounce, the
technology detector, Serper, OpenAI) are the inputs of one pipeline run,
collected in `Env`; the orchestration, merging, fallback and validation
logic around them is embedded step by step below.  Adapter payloads are
typed as the optional strings they carry in this pipeline. -/

open PyVal

/-- The configuration fields of `AgentProspection` that `traiter_prospect`
    reads (loaded from `config.yaml` in `__init__`). -/
structure Config where
  service_propose : String
  secteur_entreprise : String
  ville : String
  pays : String
  message_base : String
  message_commerce : String
  message_b2b : String
  message_artisan : String
  proposition_valeur : String

/-- A discovery candidate (the `entreprise` dict handed to
    `traiter_prospect`; `nom_entreprise` is indexed directly by the source
    and is a string for every candidate the discovery step builds). -/
structure Entreprise where
  nom_entreprise : String
  site_web : Option String
  telephone : Option String
  description : Option String

/-- Company data returned by `rechercher_entreprise_et_dirigeant` (Apollo);
    `none` models an absent key (`.get` returns `None`). -/
structure ApolloEnt where
  telephone : Option String
  linkedin_entreprise : Option String
  site_web : Option String
  taille : Option String
  industrie : Option String
  revenue : Option String

/-- Local-business data returned by `rechercher_entreprise_locale`
    (Google Maps). -/
structure GmapsEnt where
  telephone : Option String
  site_web : Option String
  adresse : Option String
  note : Option String
  nb_avis : Option String

/-- One ZeroBounce verification: either the HTTP request raised (caught
    inside `verifier_email`), or the API responded with JSON whose consumed
    fields are `status`, `sub_status`, `did_you_mean` (`none` = absent). -/
inductive ZBCall where
  | reqFail
  | reply (status sub_status did_you_mean : Option String)

/-- The dict returned by `ZeroBounceClient.verifier_email` (consumed keys
    only; in the request-failure branch the returned dict carries no
    `sub_status`/`did_you_mean` key, hence the `Option`). -/
structure ZBRes where
  status : PyVal
  sub_status : Option PyVal
  did_you_mean : Option PyVal

/-- `verifier_email`: shape the API data, defaulting a missing `status` to
    `"unknown"`, a missing `sub_status` to `""`, a missing `did_you_mean`
    to `None`; on a request error return `{"status": "unknown", ...}`. -/
def verifierEmail : ZBCall → ZBRes
  | .reqFail => ⟨vStr "unknown", none, none⟩
  | .reply st sub dym =>
    ⟨(st.map vStr).getD (vStr "unknown"),
     some ((sub.map vStr).getD (vStr "")),
     some ((dym.map vStr).getD vNone)⟩

/-- Technology detection outcome (`detecter` raised, or returned a list). -/
inductive TechOutcome where
  | exn
  | found (techs : List String)

/-- Relevance-analysis outcome (`analyser_entreprise_pertinence` raised, or
    returned a dict with the two consumed keys). -/
inductive AnalyseOutcome where
  | exn
  | reply (raison proposition : Option String)

/-- Outcome of the generation-adapter call inside
    `generer_message_personnalise`: the API call raised; the reply was not
    parseable JSON (`json.JSONDecodeError`); or it parsed into an object
    carrying the two consumed fields (`none` = key absent). -/
inductive LLMOutcome where
  | exn
  | unparseable
  | parsed (mp ps : Option PyVal)

/-- The external world of one `traiter_prospect` run.  `none` for
    `apollo`/`gmaps`/`zerobounce` means the optional client is not
    configured (`self.apollo is None`, etc.); `some none` means the client
    was called and returned no result. -/
structure Env where
  apollo : Option (Option ApolloEnt)
  hunterEmail : Option String
  gmaps : Option (Option GmapsEnt)
  zerobounce : Option ZBCall
  tech : TechOutcome
  serperLinkedin : Option String
  analyse : AnalyseOutcome
  llm : LLMOutcome

/-- A Python value from an optional adapter string (`None` when absent). -/
def pv : Option String → PyVal
  | none => vNone
  | some s => vStr s

/-- Truthiness of an optional adapter string. -/
def optTruthy (o : Option String) : Bool := pyTruthy (pv o)

/-- The initial `prospect_complet` dict (lines 415-420). -/
def initProspect (e : Entreprise) : Prospect :=
  pset (pset (pset (pset pEmpty
    "nom_entreprise" (vStr e.nom_entreprise))
    "site_web" ((e.site_web.map vStr).getD (vStr "")))
    "telephone" (pv e.telephone))
    "description" ((e.description.map vStr).getD (vStr ""))

/-- Result of the Apollo step: updated record, `telephone_trouve`,
    `donnees_entreprise`. -/
structure ResApollo where
  p : Prospect
  tt : PyVal
  donnees : Option ApolloEnt

/-- Step 1.1 (Apollo, lines 429-448): called only when the client exists and
    the record has a truthy website or company name; a found company may set
    `telephone_trouve`, the company LinkedIn, and a missing website. -/
def etapeApollo (env : Env) (p : Prospect) : ResApollo :=
  match env.apollo with
  | none => ⟨p, vNone, none⟩
  | some callRes =>
    if pyTruthy (pget p "site_web" vNone) || pyTruthy (pget p "nom_entreprise" vNone) then
      match callRes with
      | none => ⟨p, vNone, none⟩
      | some ae =>
        let tt := if optTruthy ae.telephone then pv ae.telephone else vNone
        let p1 := if optTruthy ae.linkedin_entreprise then
                    pset p "linkedin_entreprise" (pv ae.linkedin_entreprise) else p
        let p2 := if optTruthy ae.site_web && ! pyTruthy (pget p1 "site_web" vNone) then
                    pset p1 "site_web" (pv ae.site_web) else p1
        ⟨p2, tt, some ae⟩
    else ⟨p, vNone, none⟩

/-- Step 1.2 (Hunter, lines 450-459): called only when no email was found yet
    and the record has a truthy website; a truthy returned email becomes
    `email_trouve`. -/
def etapeHunter (env : Env) (p : Prospect) (emailTrouve : PyVal) : PyVal :=
  if ! pyTruthy emailTrouve && pyTruthy (pget p "site_web" vNone) then
    if optTruthy env.hunterEmail then pv env.hunterEmail else emailTrouve
  else emailTrouve

/-- Result of the Google Maps step. -/
structure ResGmaps where
  p : Prospect
  tt : PyVal

/-- Step 1.3 (Google Maps, lines 461-481): called only when the client
    exists and `telephone_trouve` is still falsy; backfills the phone, a
    missing website, the address, the rating, the review count. -/
def etapeGmaps (env : Env) (p : Prospect) (tt : PyVal) : ResGmaps :=
  match env.gmaps with
  | none => ⟨p, tt⟩
  | some callRes =>
    if ! pyTruthy tt then
      match callRes with
      | none => ⟨p, tt⟩
      | some g =>
        let tt2 := if optTruthy g.telephone && ! pyTruthy tt then pv g.telephone else tt
        let p1 := if optTruthy g.site_web && ! pyTruthy (pget p "site_web" vNone) then
                    pset p "site_web" (pv g.site_web) else p
        let p2 := if optTruthy g.adresse then pset p1 "adresse_complete" (pv g.adresse) else p1
        let p3 := if optTruthy g.note then pset p2 "note_google" (pv g.note) else p2
        let p4 := if optTruthy g.nb_avis then pset p3 "nb_avis_google" (pv g.nb_avis) else p3
        ⟨p4, tt2⟩
    else ⟨p, tt⟩

/-- Lines 483-485: assign `email` and `telephone`
    (`telephone_trouve or prospect_complet.get("telephone")`). -/
def assignerContacts (p : Prospect) (emailTrouve tt : PyVal) : Prospect :=
  let p1 := pset p "email" emailTrouve
  pset p1 "telephone" (if pyTruthy tt then tt else pget p1 "telephone" vNone)

/-- Step 1.5 (ZeroBounce, lines 487-524): verify a found email when the
    client is configured (`status = verification.get("status") or
    "unknown"`); with no client but a found email, `email_status = None`;
    with no email, the key is never written. -/
def etapeZerobounce (env : Env) (emailTrouve : PyVal) (p : Prospect) : Prospect :=
  match env.zerobounce with
  | some call =>
    if pyTruthy emailTrouve then
      let v := verifierEmail call
      let st := if pyTruthy v.status then v.status else vStr "unknown"
      let p1 := pset p "email_status" st
      let p2 := pset p1 "email_sub_status"
        (let ss := v.sub_status.getD vNone
         if pyTruthy ss then ss else vStr "")
      pset p2 "email_did_you_mean" (v.did_you_mean.getD vNone)
    else p
  | none =>
    if pyTruthy emailTrouve then pset p "email_status" vNone else p

/-- Lines 528-535: merge the Apollo firmographic fields. -/
def etapeDonneesEntreprise (donnees : Option ApolloEnt) (p : Prospect) : Prospect :=
  match donnees with
  | none => p
  | some d =>
    let p1 := if optTruthy d.taille then pset p "taille_entreprise" (pv d.taille) else p
    let p2 := if optTruthy d.industrie then pset p1 "industrie" (pv d.industrie) else p1
    if optTruthy d.revenue then pset p2 "revenue_estime" (pv d.revenue) else p2

/-- Step 2 (lines 537-548): technology detection on a truthy website;
    failures are swallowed and store the empty string. -/
def etapeTech (env : Env) (p : Prospect) : Prospect :=
  if pyTruthy (pget p "site_web" (vStr "")) then
    match env.tech with
    | .exn => pset p "technologies" (vStr "")
    | .found techs =>
      pset p "technologies" (vStr (if techs.isEmpty then "" else joinComma techs))
  else p

/-- Step 3 (lines 550-558): LinkedIn via Serper, only when not already set
    and the company name is truthy. -/
def etapeSerper (env : Env) (p : Prospect) : Prospect :=
  if ! pyTruthy (pget p "linkedin_entreprise" vNone) &&
      pyTruthy (pget p "nom_entreprise" vNone) then
    if optTruthy env.serperLinkedin then
      pset p "linkedin_entreprise" (pv env.serperLinkedin)
    else p
  else p

/-- Step 4 (lines 560-568): score, falling back to 0 when `calculer_score`
    raises. -/
def etapeScore (cfg : Config) (p : Prospect) : Prospect :=
  match calculerScore (mkScoring cfg.service_propose) p with
  | .ok s => pset p "score" (vInt s)
  | .error _ => pset p "score" (vInt 0)

/-- Step 5 (lines 570-583): relevance analysis, with the deterministic
    French fallback texts when the adapter raises. -/
def etapeAnalyse (cfg : Config) (env : Env) (p : Prospect) : Prospect :=
  match env.analyse with
  | .reply raison proposition =>
    let p1 := pset p "raison_choix" (vStr (raison.getD ""))
    pset p1 "proposition_service" (vStr (proposition.getD ""))
  | .exn =>
    let p1 := pset p "raison_choix"
      (vStr ("PME locale qui pourrait bénéficier de " ++ cfg.service_propose))
    pset p1 "proposition_service"
      (vStr ("Amélioration de leur présence digitale avec " ++ cfg.service_propose))

/-- `(x or "").lower()`: a falsy value lowers to `""`; a truthy non-string
    raises `AttributeError`. -/
def pyLowerOrEmpty (v : PyVal) : Except PyExc String :=
  if pyTruthy v then pyLower v else .ok ""

/-- `_selectionner_template_message` (lines 633-668): pick the per-category
    template from keywords of name/industry/description (`technologies` is
    fetched and lowered by the source but not used in the matched text). -/
def selectionnerTemplateMessage (cfg : Config) (p : Prospect) : Except PyExc String :=
  match pyLowerOrEmpty (pget p "nom_entreprise" vNone) with
  | .error err => .error err
  | .ok nom =>
  match pyLowerOrEmpty (pget p "industrie" vNone) with
  | .error err => .error err
  | .ok industrie =>
  match pyLowerOrEmpty (pget p "description" vNone) with
  | .error err => .error err
  | .ok description =>
  match pyLowerOrEmpty (pget p "technologies" vNone) with
  | .error err => .error err
  | .ok _technologies =>
    let commerceKeywords := ["restaurant", "boutique", "commerce", "retail", "magasin",
      "épicerie", "boulangerie", "coiffeur", "salon"]
    let artisanKeywords := ["plombier", "électricien", "maçon", "menuisier", "charpentier",
      "peintre", "chauffagiste", "artisan"]
    let b2bKeywords := ["cabinet", "fiduciaire", "consultant", "conseil", "avocat",
      "comptable", "agence", "bureau", "société"]
    let texteComplet := lowerStr (nom ++ " " ++ industrie ++ " " ++ description)
    if artisanKeywords.any (fun m => containsStr texteComplet m) then .ok cfg.message_artisan
    else if commerceKeywords.any (fun m => containsStr texteComplet m) then .ok cfg.message_commerce
    else if b2bKeywords.any (fun m => containsStr texteComplet m) then .ok cfg.message_b2b
    else .ok cfg.message_base

/-- The deterministic fallback substitution shared by
    `generer_message_personnalise` (lines 136-152 of `openai_client.py`) and
    the orchestrator's own fallback (lines 604-613 of `main.py`): the same
    four `replace` calls in the same order. -/
def substFallback (tpl nom propositionValeur : String) : String :=
  replaceStr (replaceStr (replaceStr (replaceStr tpl
    "{nom_dirigeant}" "Monsieur/Madame")
    "{nom_entreprise}" nom)
    "{point_specifique}" "votre expertise")
    "{proposition_valeur}" propositionValeur

/-- `str.replace(old, new)` requires a string `new`: a non-string company
    name raises `TypeError` inside the fallback itself. -/
def asStrForReplace : PyVal → Except PyExc String
  | vStr s => .ok s
  | _ => .error .typeError

/-- The two-field dict returned by `generer_message_personnalise`. -/
structure GenRes where
  message_personnalise : PyVal
  point_specifique : PyVal

/-- `generer_message_personnalise` (openai_client.py): on a parsed JSON
    reply, take its two fields with defaults `message_base` and
    `"expertise dans votre domaine"`; on an API exception or a JSON decode
    error, return the deterministic template substitution. -/
def genererMessagePersonnalise (outcome : LLMOutcome) (p : Prospect)
    (messageBase propositionValeur : String) : Except PyExc GenRes :=
  let nomV := pget p "nom_entreprise" (vStr "cette entreprise")
  match outcome with
  | .parsed mp ps =>
    .ok ⟨mp.getD (vStr messageBase), ps.getD (vStr "expertise dans votre domaine")⟩
  | .unparseable =>
    match asStrForReplace nomV with
    | .error err => .error err
    | .ok nom => .ok ⟨vStr (substFallback messageBase nom propositionValeur),
                      vStr "expertise dans votre domaine"⟩
  | .exn =>
    match asStrForReplace nomV with
    | .error err => .error err
    | .ok nom => .ok ⟨vStr (substFallback messageBase nom propositionValeur),
                      vStr "expertise dans votre domaine"⟩

/-- Step 7 (lines 589-613): store the generated message and point, falling
    back to the orchestrator's own template substitution if the generation
    call raised. -/
def etapeMessage (cfg : Config) (env : Env) (tpl : String) (p : Prospect) :
    Except PyExc Prospect :=
  match genererMessagePersonnalise env.llm p tpl cfg.proposition_valeur with
  | .ok r =>
    .ok (pset (pset p "message_personnalise" r.message_personnalise)
      "point_specifique" r.point_specifique)
  | .error _ =>
    match p "nom_entreprise" with
    | none => .error .keyError
    | some nomV =>
      match asStrForReplace nomV with
      | .error err => .error err
      | .ok nom =>
        .ok (pset (pset p "message_personnalise"
            (vStr (substFallback tpl nom cfg.proposition_valeur)))
          "point_specifique" (vStr "expertise dans votre domaine"))

/-- The Apollo step applied to the initial record. -/
def resApollo (env : Env) (e : Entreprise) : ResApollo :=
  etapeApollo env (initProspect e)

/-- `email_trouve` after the Hunter step. -/
def emailTrouveDe (env : Env) (e : Entreprise) : PyVal :=
  etapeHunter env (resApollo env e).p vNone

/-- The Google Maps step applied after Apollo. -/
def resGmaps (env : Env) (e : Entreprise) : ResGmaps :=
  etapeGmaps env (resApollo env e).p (resApollo env e).tt

/-- The record after the contact assignment of lines 483-485. -/
def prospectContacts (env : Env) (e : Entreprise) : Prospect :=
  assignerContacts (resGmaps env e).p (emailTrouveDe env e) (resGmaps env e).tt

/-- The record right before template selection (after steps 1-5). -/
def avantMessage (cfg : Config) (env : Env) (e : Entreprise) : Prospect :=
  etapeAnalyse cfg env (etapeScore cfg (etapeSerper env (etapeTech env
    (etapeDonneesEntreprise (resApollo env e).donnees
      (etapeZerobounce env (emailTrouveDe env e) (prospectContacts env e))))))

/-- The full enrichment sequence of `traiter_prospect` (steps 1-7), ending
    right before the contact validation. -/
def enrichir (cfg : Config) (env : Env) (e : Entreprise) : Except PyExc Prospect :=
  match selectionnerTemplateMessage cfg (avantMessage cfg env e) with
  | .error err => .error err
  | .ok tpl =>
    etapeMessage cfg env tpl (pset (avantMessage cfg env e) "template_utilise" (vStr tpl))

/-- `traiter_prospect`: enrich, then discard (return `None`, insert nothing)
    when neither email nor telephone is truthy, else call `ajouter_prospect`
    once and return the record.  The second component of the pair is the
    list of storage inserts performed. -/
def traiterProspect (cfg : Config) (env : Env) (e : Entreprise) :
    Except PyExc (Option Prospect × List Prospect) :=
  match enrichir cfg env e with
  | .error err => .error err
  | .ok p =>
    if ! pyTruthy (pget p "email" vNone) && ! pyTruthy (pget p "telephone" vNone) then
      .ok (none, [])
    else .ok (some p, [p])

end MHProspect

namespace MHProspect

/-! ## Which fields each pipeline step writes -/

open PyVal

theorem etapeApollo_p_pres (env : Env) (p : Prospect) (k : String)
    (h1 : k ≠ "linkedin_entreprise") (h2 : k ≠ "site_web") :
    (etapeApollo env p).p k = p k := by
  unfold etapeApollo
  rcases env.apollo with _ | callRes
  · rfl
  · simp only []
    split
    · rcases callRes with _ | ae
      · rfl
      · simp only []
        split_ifs <;> simp [h1, h2]
    · rfl

theorem etapeGmaps_p_pres (env : Env) (p : Prospect) (tt : PyVal) (k : String)
    (h1 : k ≠ "site_web") (h2 : k ≠ "adresse_complete") (h3 : k ≠ "note_google")
    (h4 : k ≠ "nb_avis_google") :
    (etapeGmaps env p tt).p k = p k := by
  unfold etapeGmaps
  rcases env.gmaps with _ | callRes
  · rfl
  · simp only []
    split
    · rcases callRes with _ | g
      · rfl
      · simp only []
        split_ifs <;> simp [h1, h2, h3, h4]
    · rfl

theorem assignerContacts_pres (p : Prospect) (et tt : PyVal) (k : String)
    (h1 : k ≠ "email") (h2 : k ≠ "telephone") :
    assignerContacts p et tt k = p k := by
  simp [assignerContacts, h1, h2]

theorem etapeZerobounce_pres (env : Env) (et : PyVal) (p : Prospect) (k : String)
    (h1 : k ≠ "email_status") (h2 : k ≠ "email_sub_status")
    (h3 : k ≠ "email_did_you_mean") :
    etapeZerobounce env et p k = p k := by
  unfold etapeZerobounce
  rcases env.zerobounce with _ | call <;> split_ifs <;> simp [h1, h2, h3]

theorem etapeDonneesEntreprise_pres (donnees : Option ApolloEnt) (p : Prospect) (k : String)
    (h1 : k ≠ "taille_entreprise") (h2 : k ≠ "industrie") (h3 : k ≠ "revenue_estime") :
    etapeDonneesEntreprise donnees p k = p k := by
  unfold etapeDonneesEntreprise
  rcases donnees with _ | d
  · rfl
  · simp only []
    split_ifs <;> simp [h1, h2, h3]

theorem etapeTech_pres (env : Env) (p : Prospect) (k : String)
    (h1 : k ≠ "technologies") :
    etapeTech env p k = p k := by
  unfold etapeTech
  split
  · rcases env.tech with _ | techs <;> simp [h1]
  · rfl

theorem etapeSerper_pres (env : Env) (p : Prospect) (k : String)
    (h1 : k ≠ "linkedin_entreprise") :
    etapeSerper env p k = p k := by
  unfold etapeSerper
  split_ifs <;> simp [h1]

theorem etapeScore_pres (cfg : Config) (p : Prospect) (k : String)
    (h1 : k ≠ "score") :
    etapeScore cfg p k = p k := by
  unfold etapeScore
  cases hsc : calculerScore (mkScoring cfg.service_propose) p <;> simp [hsc, h1]

theorem etapeAnalyse_pres (cfg : Config) (env : Env) (p : Prospect) (k : String)
    (h1 : k ≠ "raison_choix") (h2 : k ≠ "proposition_service") :
    etapeAnalyse cfg env p k = p k := by
  unfold etapeAnalyse
  rcases env.analyse with _ | ⟨raison, proposition⟩ <;> simp [h1, h2]

theorem etapeMessage_pres (cfg : Config) (env : Env) (tpl : String) (p q : Prospect)
    (h : etapeMessage cfg env tpl p = .ok q) (k : String)
    (h1 : k ≠ "message_personnalise") (h2 : k ≠ "point_specifique") :
    q k = p k := by
  unfold etapeMessage at h
  split at h
  · cases h
    simp [h1, h2]
  · split at h
    · cases h
    · split at h
      · cases h
      · cases h
        simp [h1, h2]

/-- Fields written by none of the enrichment steps 1-5 keep, in
    `avantMessage`, the value they had after the contact assignment. -/
theorem avantMessage_pres (cfg : Config) (env : Env) (e : Entreprise) (k : String)
    (h1 : k ≠ "email_status") (h2 : k ≠ "email_sub_status")
    (h3 : k ≠ "email_did_you_mean") (h4 : k ≠ "taille_entreprise")
    (h5 : k ≠ "industrie") (h6 : k ≠ "revenue_estime") (h7 : k ≠ "technologies")
    (h8 : k ≠ "linkedin_entreprise") (h9 : k ≠ "score") (h10 : k ≠ "raison_choix")
    (h11 : k ≠ "proposition_service") :
    avantMessage cfg env e k = prospectContacts env e k := by
  unfold avantMessage
  rw [etapeAnalyse_pres _ _ _ _ h10 h11, etapeScore_pres _ _ _ h9,
    etapeSerper_pres _ _ _ h8, etapeTech_pres _ _ _ h7,
    etapeDonneesEntreprise_pres _ _ _ h4 h5 h6,
    etapeZerobounce_pres _ _ _ _ h1 h2 h3]

/-- Any field other than the template and message fields survives the final
    template-selection and message step of `enrichir` unchanged. -/
theorem enrichir_pres (cfg : Config) (env : Env) (e : Entreprise) (p : Prospect)
    (h : enrichir cfg env e = .ok p) (k : String)
    (h1 : k ≠ "template_utilise") (h2 : k ≠ "message_personnalise")
    (h3 : k ≠ "point_specifique") :
    p k = avantMessage cfg env e k := by
  unfold enrichir at h
  split at h
  · cases h
  · rw [etapeMessage_pres _ _ _ _ _ h _ h2 h3]
    simp [h1]

end MHProspect

namespace MHProspect

/-! ## Field values along the pipeline -/

open PyVal

theorem initProspect_nom (e : Entreprise) :
    initProspect e "nom_entreprise" = some (vStr e.nom_entreprise) := rfl

theorem initProspect_telephone (e : Entreprise) :
    initProspect e "telephone" = some (pv e.telephone) := rfl

theorem initProspect_email_status (e : Entreprise) :
    initProspect e "email_status" = none := rfl

theorem truthy_site_init (e : Entreprise) :
    pyTruthy (pget (initProspect e) "site_web" vNone) = optTruthy e.site_web := by
  obtain ⟨nom, site, tel, desc⟩ := e
  cases site <;> rfl

theorem truthy_nom_init (e : Entreprise) :
    pyTruthy (pget (initProspect e) "nom_entreprise" vNone) =
      decide (e.nom_entreprise ≠ "") := rfl

/-- When Apollo is configured, is called (truthy site or name), finds the
    company and that company has a truthy phone, `telephone_trouve` is
    Apollo's phone. -/
theorem resApollo_tt_of_set (env : Env) (e : Entreprise) (ae : ApolloEnt)
    (ha : env.apollo = some (some ae))
    (hc : (optTruthy e.site_web || decide (e.nom_entreprise ≠ "")) = true)
    (ht : optTruthy ae.telephone = true) :
    (resApollo env e).tt = pv ae.telephone := by
  unfold resApollo etapeApollo
  simp only [ha]
  rw [if_pos (show (pyTruthy (pget (initProspect e) "site_web" vNone) ||
      pyTruthy (pget (initProspect e) "nom_entreprise" vNone)) = true by
    rw [truthy_site_init, truthy_nom_init]; exact hc)]
  simp [ht]

/-- A truthy `telephone_trouve` skips the Google Maps step entirely. -/
theorem resGmaps_tt_skip (env : Env) (e : Entreprise)
    (h : pyTruthy (resApollo env e).tt = true) :
    (resGmaps env e).tt = (resApollo env e).tt := by
  unfold resGmaps etapeGmaps
  rcases env.gmaps with _ | callRes <;> simp [h]

/-- When Apollo set no phone and Google Maps finds one, `telephone_trouve`
    becomes the Google Maps phone. -/
theorem resGmaps_tt_of_set (env : Env) (e : Entreprise) (g : GmapsEnt)
    (ha : (resApollo env e).tt = vNone)
    (hg : env.gmaps = some (some g))
    (ht : optTruthy g.telephone = true) :
    (resGmaps env e).tt = pv g.telephone := by
  unfold resGmaps etapeGmaps
  rw [hg, ha]
  simp [ht, pyTruthy]

theorem resGmaps_p_telephone (env : Env) (e : Entreprise) :
    (resGmaps env e).p "telephone" = some (pv e.telephone) := by
  unfold resGmaps resApollo
  rw [etapeGmaps_p_pres _ _ _ _ (by decide) (by decide) (by decide) (by decide),
    etapeApollo_p_pres _ _ _ (by decide) (by decide), initProspect_telephone]

theorem prospectContacts_telephone (env : Env) (e : Entreprise) :
    prospectContacts env e "telephone" =
      some (if pyTruthy (resGmaps env e).tt then (resGmaps env e).tt
            else pv e.telephone) := by
  unfold prospectContacts assignerContacts
  have hg : pget (pset (resGmaps env e).p "email" (emailTrouveDe env e))
      "telephone" vNone = pv e.telephone := by
    simp only [pget, pset_ne _ _ _ _ (show "telephone" ≠ "email" from by decide)]
    rw [resGmaps_p_telephone]
    rfl
  simp only [hg, pset_eq]

theorem prospectContacts_email_status (env : Env) (e : Entreprise) :
    prospectContacts env e "email_status" = none := by
  unfold prospectContacts
  rw [assignerContacts_pres _ _ _ _ (by decide) (by decide)]
  unfold resGmaps resApollo
  rw [etapeGmaps_p_pres _ _ _ _ (by decide) (by decide) (by decide) (by decide),
    etapeApollo_p_pres _ _ _ (by decide) (by decide), initProspect_email_status]

theorem prospectContacts_nom (env : Env) (e : Entreprise) :
    prospectContacts env e "nom_entreprise" = some (vStr e.nom_entreprise) := by
  unfold prospectContacts
  rw [assignerContacts_pres _ _ _ _ (by decide) (by decide)]
  unfold resGmaps resApollo
  rw [etapeGmaps_p_pres _ _ _ _ (by decide) (by decide) (by decide) (by decide),
    etapeApollo_p_pres _ _ _ (by decide) (by decide), initProspect_nom]

theorem avantMessage_telephone (cfg : Config) (env : Env) (e : Entreprise) :
    avantMessage cfg env e "telephone" = prospectContacts env e "telephone" :=
  avantMessage_pres cfg env e "telephone" (by decide) (by decide) (by decide)
    (by decide) (by decide) (by decide) (by decide) (by decide) (by decide)
    (by decide) (by decide)

theorem avantMessage_email_status (cfg : Config) (env : Env) (e : Entreprise) :
    avantMessage cfg env e "email_status" =
      etapeZerobounce env (emailTrouveDe env e) (prospectContacts env e) "email_status" := by
  unfold avantMessage
  rw [etapeAnalyse_pres _ _ _ _ (by decide) (by decide), etapeScore_pres _ _ _ (by decide),
    etapeSerper_pres _ _ _ (by decide), etapeTech_pres _ _ _ (by decide),
    etapeDonneesEntreprise_pres _ _ _ (by decide) (by decide) (by decide)]

theorem avantMessage_nom (cfg : Config) (env : Env) (e : Entreprise) :
    avantMessage cfg env e "nom_entreprise" = some (vStr e.nom_entreprise) := by
  rw [avantMessage_pres cfg env e "nom_entreprise" (by decide) (by decide) (by decide)
      (by decide) (by decide) (by decide) (by decide) (by decide) (by decide)
      (by decide) (by decide),
    prospectContacts_nom]

/-- How `etapeZerobounce` writes `email_status`. -/
theorem etapeZerobounce_status (env : Env) (et : PyVal) (p : Prospect) :
    etapeZerobounce env et p "email_status" =
      (match env.zerobounce, pyTruthy et with
       | some call, true =>
         some (if pyTruthy (verifierEmail call).status then (verifierEmail call).status
               else vStr "unknown")
       | none, true => some vNone
       | _, false => p "email_status") := by
  unfold etapeZerobounce
  rcases env.zerobounce with _ | call <;> cases het : pyTruthy et <;> simp [het]

/-- The status field built by `verifier_email` is always a string value. -/
theorem verifierEmail_status_str (call : ZBCall) :
    ∃ s, (verifierEmail call).status = vStr s := by
  rcases call with _ | ⟨st, sub, dym⟩
  · exact ⟨"unknown", rfl⟩
  · rcases st with _ | s
    · exact ⟨"unknown", rfl⟩
    · exact ⟨s, rfl⟩

end MHProspect

namespace MHProspect

/-! ## Claims C4, C5, C7, C9 -/

open PyVal

/-- C4: a prospect that finishes the enrichment sequence with neither a
    truthy email nor a truthy telephone is discarded: `traiter_prospect`
    returns `None` and performs no storage insert. -/
theorem claim_C4_discard_without_contact :
    ∀ (cfg : Config) (env : Env) (e : Entreprise) (p : Prospect),
      enrichir cfg env e = .ok p →
      pyTruthy (pget p "email" vNone) = false →
      pyTruthy (pget p "telephone" vNone) = false →
      traiterProspect cfg env e = .ok (none, []) := by
  intro cfg env e p h he ht
  unfold traiterProspect
  rw [h]
  simp [he, ht]

/-- Shared concrete configuration for the pipeline examples. -/
def cfgTest : Config :=
  ⟨"création de sites web", "Agence Web", "Genève", "Suisse",
   "Bonjour {nom_dirigeant}, {nom_entreprise} : {point_specifique}. {proposition_valeur}",
   "Template commerce {nom_entreprise}", "Template B2B {nom_entreprise}",
   "Template artisan {nom_entreprise}", "notre accompagnement web"⟩

/-- An environment in which every optional adapter is absent and every call
    returns nothing. -/
def envInerte : Env :=
  ⟨none, none, none, none, .found [], none, .reply none none, .parsed none none⟩

/-- A candidate with no website, no phone: after enrichment it has neither
    email nor telephone. -/
def eSansContact : Entreprise := ⟨"Atelier de Reliure", none, none, none⟩

/-- The record produced by enriching `eSansContact` in `envInerte`. -/
def pSansContact : Prospect :=
  match enrichir cfgTest envInerte eSansContact with
  | .ok p => p
  | .error _ => pEmpty

/-- Witness for C4 at a concrete candidate and environment. -/
theorem claim_C4_discard_without_contact_witness :
    traiterProspect cfgTest envInerte eSansContact = .ok (none, []) :=
  claim_C4_discard_without_contact cfgTest envInerte eSansContact pSansContact rfl rfl rfl

/-- The Apollo company found in the C5 example, carrying a phone. -/
def aeApolloPhone : ApolloEnt :=
  ⟨some "+41 22 999 99 99", none, none, none, none, none⟩

/-- Environment in which Apollo is configured and returns `aeApolloPhone`. -/
def envApolloPhone : Env :=
  ⟨some (some aeApolloPhone), none, none, none, .found [], none,
   .reply none none, .parsed none none⟩

/-- A candidate that already carries a phone number of its own. -/
def eAvecTelephone : Entreprise :=
  ⟨"Garage du Parc", some "https://garage-du-parc.ch", some "+41 21 000 00 00", none⟩

/-- The record produced by enriching `eAvecTelephone` in `envApolloPhone`. -/
def pApolloPhone : Prospect :=
  match enrichir cfgTest envApolloPhone eAvecTelephone with
  | .ok p => p
  | .error _ => pEmpty

/-- Counterexample to C5 as stated: the candidate's own phone is the first
    value written to `telephone`, yet the later Apollo step's phone replaces
    it — the final merge `telephone_trouve or prospect_complet.get("telephone")`
    gives the adapters priority over the candidate value, so "first writer
    wins" fails for the initial phone. -/
theorem counterexample_C5_initial_phone_overwritten :
    eAvecTelephone.telephone = some "+41 21 000 00 00" ∧
    enrichir cfgTest envApolloPhone eAvecTelephone = .ok pApolloPhone ∧
    pApolloPhone "telephone" = some (vStr "+41 22 999 99 99") ∧
    "+41 22 999 99 99" ≠ "+41 21 000 00 00" :=
  ⟨rfl, rfl, rfl, by decide⟩

/-- C5 (amended): the final telephone is Apollo's phone if Apollo set one,
    else Google Maps' phone if it set one, else the candidate's initial
    value.  Between the two adapters first-writer-wins holds (a phone set by
    Apollo skips the Google Maps lookup entirely), but the adapters take
    priority over — and do overwrite — the candidate's initial phone. -/
theorem claim_C5_telephone_priority :
    (∀ (cfg : Config) (env : Env) (e : Entreprise) (p : Prospect) (ae : ApolloEnt),
      enrichir cfg env e = .ok p →
      env.apollo = some (some ae) →
      (optTruthy e.site_web || decide (e.nom_entreprise ≠ "")) = true →
      optTruthy ae.telephone = true →
      p "telephone" = some (pv ae.telephone)) ∧
    (∀ (cfg : Config) (env : Env) (e : Entreprise) (p : Prospect) (g : GmapsEnt),
      enrichir cfg env e = .ok p →
      (resApollo env e).tt = vNone →
      env.gmaps = some (some g) →
      optTruthy g.telephone = true →
      p "telephone" = some (pv g.telephone)) ∧
    (∀ (cfg : Config) (env : Env) (e : Entreprise) (p : Prospect),
      enrichir cfg env e = .ok p →
      (resApollo env e).tt = vNone →
      (resGmaps env e).tt = vNone →
      p "telephone" = some (pv e.telephone)) := by
  refine ⟨?_, ?_, ?_⟩
  · intro cfg env e p ae h ha hc ht
    rw [enrichir_pres cfg env e p h _ (by decide) (by decide) (by decide),
      avantMessage_telephone, prospectContacts_telephone]
    have htt : (resApollo env e).tt = pv ae.telephone := resApollo_tt_of_set env e ae ha hc ht
    have htr : pyTruthy (resApollo env e).tt = true := by rw [htt]; exact ht
    rw [resGmaps_tt_skip env e htr, htt]
    simp [show pyTruthy (pv ae.telephone) = true from ht]
  · intro cfg env e p g h ha0 hg ht
    rw [enrichir_pres cfg env e p h _ (by decide) (by decide) (by decide),
      avantMessage_telephone, prospectContacts_telephone,
      resGmaps_tt_of_set env e g ha0 hg ht]
    simp [show pyTruthy (pv g.telephone) = true from ht]
  · intro cfg env e p h ha0 hg0
    rw [enrichir_pres cfg env e p h _ (by decide) (by decide) (by decide),
      avantMessage_telephone, prospectContacts_telephone, hg0]
    rfl

/-- Witness for C5 (first conjunct) at the concrete Apollo environment. -/
theorem claim_C5_telephone_priority_witness :
    pApolloPhone "telephone" = some (pv (some "+41 22 999 99 99")) :=
  claim_C5_telephone_priority.1 cfgTest envApolloPhone eAvecTelephone pApolloPhone
    aeApolloPhone rfl rfl rfl rfl

end MHProspect

namespace MHProspect

open PyVal

/-- Environment for the C9 example: Hunter finds an email, ZeroBounce
    replies with the API status "do_not_mail". -/
def envDoNotMail : Env :=
  ⟨none, some "info@fromagerie-du-lac.ch", none,
   some (.reply (some "do_not_mail") none none), .found [], none,
   .reply none none, .parsed none none⟩

/-- A candidate with a website (so the email lookup runs). -/
def eFromagerie : Entreprise :=
  ⟨"Fromagerie du Lac", some "https://fromagerie-du-lac.ch", none, none⟩

/-- The record produced by enriching `eFromagerie` in `envDoNotMail`. -/
def pDoNotMail : Prospect :=
  match enrichir cfgTest envDoNotMail eFromagerie with
  | .ok p => p
  | .error _ => pEmpty

/-- Counterexample to C9 as stated: the pipeline passes the verification
    API's status through verbatim, so a processed (and persisted) prospect
    can carry `email_status = "do_not_mail"`, which is none of "valid",
    "invalid", "catch-all", "unknown" and not `None`. -/
theorem counterexample_C9_status_passthrough :
    traiterProspect cfgTest envDoNotMail eFromagerie = .ok (some pDoNotMail, [pDoNotMail]) ∧
    pDoNotMail "email_status" = some (vStr "do_not_mail") ∧
    ("do_not_mail" ≠ "valid" ∧ "do_not_mail" ≠ "invalid" ∧
     "do_not_mail" ≠ "catch-all" ∧ "do_not_mail" ≠ "unknown") :=
  ⟨rfl, rfl, by decide⟩

/-- C9 (amended): `email_status` is absent/None exactly when verification
    was not attempted (no email found, or no verification client), and
    otherwise it is a non-empty string: the status string the verification
    API returned when that is truthy — whatever it is, including values such
    as "do_not_mail" — and "unknown" when the API status is missing, empty,
    or the request failed.  It is never any other shape (in particular never
    the empty string). -/
theorem claim_C9_email_status_values :
    ∀ (cfg : Config) (env : Env) (e : Entreprise) (p : Prospect),
      enrichir cfg env e = .ok p →
      (p "email_status" = none ∨ p "email_status" = some vNone ∨
        ∃ s, p "email_status" = some (vStr s) ∧ s ≠ "") ∧
      (∀ call, env.zerobounce = some call → pyTruthy (emailTrouveDe env e) = true →
        p "email_status" =
          some (if pyTruthy (verifierEmail call).status then (verifierEmail call).status
                else vStr "unknown")) ∧
      (env.zerobounce = none → pyTruthy (emailTrouveDe env e) = true →
        p "email_status" = some vNone) ∧
      (pyTruthy (emailTrouveDe env e) = false → p "email_status" = none) := by
  intro cfg env e p h
  have hkey : p "email_status" =
      (match env.zerobounce, pyTruthy (emailTrouveDe env e) with
       | some call, true =>
         some (if pyTruthy (verifierEmail call).status then (verifierEmail call).status
               else vStr "unknown")
       | none, true => some vNone
       | _, false => prospectContacts env e "email_status") := by
    rw [enrichir_pres cfg env e p h _ (by decide) (by decide) (by decide),
      avantMessage_email_status, etapeZerobounce_status]
  refine ⟨?_, ?_, ?_, ?_⟩
  · rcases hzb : env.zerobounce with _ | call <;>
      cases het : pyTruthy (emailTrouveDe env e) <;>
      rw [hzb, het] at hkey <;>
      simp only [prospectContacts_email_status] at hkey
    · exact Or.inl hkey
    · exact Or.inr (Or.inl hkey)
    · exact Or.inl hkey
    · obtain ⟨s, hs⟩ := verifierEmail_status_str call
      rw [hs] at hkey
      by_cases hse : s = ""
      · subst hse
        refine Or.inr (Or.inr ⟨"unknown", ?_, by decide⟩)
        rw [hkey]
        rfl
      · refine Or.inr (Or.inr ⟨s, ?_, hse⟩)
        rw [hkey]
        simp [pyTruthy, hse]
  · intro call hzb het
    rw [hzb, het] at hkey
    exact hkey
  · intro hzb het
    rw [hzb, het] at hkey
    exact hkey
  · intro het
    rcases hzb : env.zerobounce with _ | call <;>
      rw [hzb, het] at hkey <;>
      rw [hkey, prospectContacts_email_status]

/-- Witness for C9 at the concrete "do_not_mail" environment. -/
theorem claim_C9_email_status_values_witness :
    (pDoNotMail "email_status" = none ∨ pDoNotMail "email_status" = some vNone ∨
      ∃ s, pDoNotMail "email_status" = some (vStr s) ∧ s ≠ "") ∧
    (∀ call, envDoNotMail.zerobounce = some call →
      pyTruthy (emailTrouveDe envDoNotMail eFromagerie) = true →
      pDoNotMail "email_status" =
        some (if pyTruthy (verifierEmail call).status then (verifierEmail call).status
              else vStr "unknown")) ∧
    (envDoNotMail.zerobounce = none →
      pyTruthy (emailTrouveDe envDoNotMail eFromagerie) = true →
      pDoNotMail "email_status" = some vNone) ∧
    (pyTruthy (emailTrouveDe envDoNotMail eFromagerie) = false →
      pDoNotMail "email_status" = none) :=
  claim_C9_email_status_values cfgTest envDoNotMail eFromagerie pDoNotMail rfl

end MHProspect

namespace MHProspect

open PyVal

/-- Environment for the C7 counterexample: every adapter inert except the
    generation adapter, whose reply parses into explicit empty strings. -/
def envMessageVide : Env :=
  ⟨none, some "contact@menuiserie-grandjean.ch", none, none, .found [], none,
   .reply none none, .parsed (some (vStr "")) (some (vStr ""))⟩

/-- A candidate with a website and hence an email (so it is persisted). -/
def eMenuiserie : Entreprise :=
  ⟨"Menuiserie Grandjean", some "https://menuiserie-grandjean.ch", none, none⟩

/-- The record produced by enriching `eMenuiserie` in `envMessageVide`. -/
def pMessageVide : Prospect :=
  match enrichir cfgTest envMessageVide eMenuiserie with
  | .ok p => p
  | .error _ => pEmpty

/-- Counterexample to C7 as stated: when the generation adapter returns
    parseable JSON whose fields are explicit empty strings, the pipeline
    stores them verbatim — a processed and persisted prospect ends up with
    empty `message_personnalise` and `point_specifique`, so the step does
    not always set non-empty text. -/
theorem counterexample_C7_empty_parsed_message :
    traiterProspect cfgTest envMessageVide eMenuiserie =
      .ok (some pMessageVide, [pMessageVide]) ∧
    pMessageVide "message_personnalise" = some (vStr "") ∧
    pMessageVide "point_specifique" = some (vStr "") :=
  ⟨rfl, rfl, rfl⟩

/-- In the failure outcomes, `generer_message_personnalise` returns the
    deterministic fallback pair. -/
theorem genererMessage_fallback (outcome : LLMOutcome) (p : Prospect)
    (messageBase propval nom : String)
    (hout : outcome = .exn ∨ outcome = .unparseable)
    (hnom : pget p "nom_entreprise" (vStr "cette entreprise") = vStr nom) :
    genererMessagePersonnalise outcome p messageBase propval =
      .ok ⟨vStr (substFallback messageBase nom propval),
           vStr "expertise dans votre domaine"⟩ := by
  rcases hout with h | h <;> subst h <;>
    simp [genererMessagePersonnalise, hnom, asStrForReplace]

/-- C7 (amended): when the generation adapter raises or returns unparseable
    output, the pipeline deterministically sets `point_specifique` to the
    non-empty constant "expertise dans votre domaine" and
    `message_personnalise` to the selected template with the four
    placeholders substituted (company name, "Monsieur/Madame",
    "votre expertise", the configured value proposition).  When the adapter
    returns parseable JSON, the parsed values are stored verbatim and may be
    empty (see the counterexample). -/
theorem claim_C7_message_fallback :
    ∀ (cfg : Config) (env : Env) (e : Entreprise) (p : Prospect),
      enrichir cfg env e = .ok p →
      (env.llm = .exn ∨ env.llm = .unparseable) →
      p "point_specifique" = some (vStr "expertise dans votre domaine") ∧
      ∃ tpl, p "template_utilise" = some (vStr tpl) ∧
        p "message_personnalise" =
          some (vStr (substFallback tpl e.nom_entreprise cfg.proposition_valeur)) := by
  intro cfg env e p h hout
  unfold enrichir at h
  split at h
  · cases h
  · rename_i tpl hsel
    have hnom : pget (pset (avantMessage cfg env e) "template_utilise" (vStr tpl))
        "nom_entreprise" (vStr "cette entreprise") = vStr e.nom_entreprise := by
      simp only [pget,
        pset_ne _ _ _ _ (show "nom_entreprise" ≠ "template_utilise" from by decide)]
      rw [avantMessage_nom]
      rfl
    unfold etapeMessage at h
    rw [genererMessage_fallback env.llm _ tpl cfg.proposition_valeur
      e.nom_entreprise hout hnom] at h
    cases h
    refine ⟨by simp, tpl, ?_, ?_⟩
    · rw [pset_ne _ _ _ _ (show "template_utilise" ≠ "point_specifique" from by decide),
        pset_ne _ _ _ _ (show "template_utilise" ≠ "message_personnalise" from by decide),
        pset_eq]
    · rw [pset_ne _ _ _ _
          (show "message_personnalise" ≠ "point_specifique" from by decide),
        pset_eq]

/-- Environment for the C7 witness: the generation adapter raises. -/
def envMessageExn : Env :=
  ⟨none, some "contact@menuiserie-grandjean.ch", none, none, .found [], none,
   .reply none none, .exn⟩

/-- The record produced by enriching `eMenuiserie` in `envMessageExn`. -/
def pMessageExn : Prospect :=
  match enrichir cfgTest envMessageExn eMenuiserie with
  | .ok p => p
  | .error _ => pEmpty

/-- Witness for C7 at the concrete raising environment. -/
theorem claim_C7_message_fallback_witness :
    pMessageExn "point_specifique" = some (vStr "expertise dans votre domaine") ∧
    ∃ tpl, pMessageExn "template_utilise" = some (vStr tpl) ∧
      pMessageExn "message_personnalise" =
        some (vStr (substFallback tpl eMenuiserie.nom_entreprise
          cfgTest.proposition_valeur)) :=
  claim_C7_message_fallback cfgTest envMessageExn eMenuiserie pMessageExn rfl (Or.inl rfl)

end MHProspect
